import Mathlib

/-!
# CUDASceneRepHashSDF: the host orchestrator of the voxel-hashing pipeline

A shallow embedding of `project/DepthSensingCUDA/Source/CUDASceneRepHashSDF.h`.

* The class state (`m_hashParams`, `m_hashData`, `m_numIntegratedFrames`) is a
  record; every member function is a function on that record.
* The functions the header only declares (the CUDA entry points, the scan
  utility, the matrix helpers) are fields of `DeviceCode`: the host code is
  verified for every implementation of them. Where a statement is about
  what such a function computes, a definition in `SpecModel` follows the
  specification's description of it.
* `unsigned int` values are natural numbers reduced modulo `2^32` where the
  source can wrap; `float` is an abstract type `F` (the host code only copies
  floats around).
* Profiling and timing calls (`PROFILE_CODE`, `s_timingsDetailledEnabled`)
  only feed telemetry and are left out.
-/

namespace VoxelHashing

/-! ## Data model -/

/-- Number of values of an `unsigned int`. -/
def UINT_MOD : Nat := 4294967296

/-- Modelled from the spec: the macro `FREE_ENTRY` (defined in a header outside
this file), the `ptr = -2` of an empty hash slot; `debugHash` tests
`ptr != -2` under the comment `!= FREE_ENTRY`. -/
def FREE_ENTRY : Int := -2

/-- Modelled from the spec: the macro `LOCK_ENTRY` (defined in a header outside
this file), the `ptr = -1` of a slot that is reserved but whose brick is not
allocated yet. -/
def LOCK_ENTRY : Int := -1

/-- A C `int` stored into an `unsigned int`. -/
def toUInt (i : Int) : Nat := (i % (UINT_MOD : Int)).toNat

/-- Modelled from the spec: a 4x4 pose matrix of floats (`mat4f` on the host,
`float4x4` on the device, both declared outside this file), row by row. -/
structure mat4f (F : Type) where
  m11 : F
  m12 : F
  m13 : F
  m14 : F
  m21 : F
  m22 : F
  m23 : F
  m24 : F
  m31 : F
  m32 : F
  m33 : F
  m34 : F
  m41 : F
  m42 : F
  m43 : F
  m44 : F
deriving DecidableEq, Repr

/-- Modelled from the spec: the matrix `setIdentity()` leaves behind, the
identity pose. -/
def mat4f.identity {F : Type} [Zero F] [One F] : mat4f F :=
  { m11 := 1, m12 := 0, m13 := 0, m14 := 0,
    m21 := 0, m22 := 1, m23 := 0, m24 := 0,
    m31 := 0, m32 := 0, m33 := 1, m34 := 0,
    m41 := 0, m42 := 0, m43 := 0, m44 := 1 }

/-- Modelled from the spec: an integer brick coordinate (`int3`). -/
structure int3 where
  x : Int
  y : Int
  z : Int
deriving DecidableEq, Repr

/-- Modelled from the spec: three floats (`float3`). -/
structure float3 (F : Type) where
  x : F
  y : F
  z : F
deriving DecidableEq, Repr

/-- Modelled from the spec: one slot of the hash table, the record
`{pos:(i32,i32,i32), offset:i32, ptr:i32}`; `debugHash` reads `pos` and
`ptr`. -/
structure HashEntry where
  pos : int3
  offset : Int
  ptr : Int
deriving DecidableEq, Repr

/-- Modelled from the spec: the configuration record `HashParams` (declared
outside this file), with the fields `parametersFromGlobalAppState` fills in
and `m_numOccupiedBlocks`; counts and sizes are `unsigned int`s. -/
structure HashParams (F : Type) where
  m_rigidTransform : mat4f F
  m_rigidTransformInverse : mat4f F
  m_hashNumBuckets : Nat
  m_hashBucketSize : Nat
  m_hashMaxCollisionLinkedListSize : Nat
  m_SDFBlockSize : Nat
  m_numSDFBlocks : Nat
  m_virtualVoxelSize : F
  m_numOccupiedBlocks : Nat
  m_maxIntegrationDistance : F
  m_truncation : F
  m_truncScale : F
  m_integrationWeightSample : Nat
  m_integrationWeightMax : Nat
  m_streamingChunkExtents : float3 F
  m_streamingGridDimensions : int3
  m_streamingMinGridPos : int3
  m_streamingInitialChunkListSize : Nat
deriving DecidableEq, Repr

/-- Modelled from the spec: one voxel of a brick. -/
structure Voxel (F : Type) where
  sdf : F
  weight : Nat
  color : Nat × Nat × Nat
deriving DecidableEq, Repr

/-- Modelled from the spec: the device buffers behind `m_hashData`
(`VoxelHashData`, declared outside this file). `d_heap`, `d_heapCounter`,
`d_hash`, `d_hashDecision` and `d_hashDecisionPrefix` are read by the header;
the other buffers are the ones the specification names (`d_deleteFlags` is
the scratch array of garbage collection, indexed by compacted position). -/
structure VoxelHashData (F : Type) where
  d_heap : List Nat
  d_heapCounter : Nat
  d_hash : List HashEntry
  d_hashDecision : List Nat
  d_hashDecisionPrefix : List Nat
  d_hashCompactified : List Nat
  d_hashBucketMutex : List Nat
  d_SDFBlocks : List (Voxel F)
  d_overflowCounter : Nat
  d_deleteFlags : List Nat
deriving DecidableEq, Repr

/-- Modelled from the spec: a depth frame as the camera interface hands it
over (`DepthCameraData`, declared outside this file): its dimensions, the
depth image (`0` is an invalid pixel) and the colour image. -/
structure DepthCameraData (F : Type) where
  width : Nat
  height : Nat
  d_depthData : List F
  d_colorData : List Nat
deriving DecidableEq, Repr

/-- Modelled from the spec: the configured camera intrinsics
(`DepthCameraParams`, declared outside this file). -/
structure DepthCameraParams (F : Type) where
  m_imageWidth : Nat
  m_imageHeight : Nat
  fx : F
  fy : F
  mx : F
  my : F
deriving DecidableEq, Repr

/-- Device-global state the kernels can read besides their arguments: the
depth/colour textures bound by `bindInputDepthColorTextures` and the copy of
the parameters uploaded by `updateParams` ("make the rigid transform
available on the GPU"). -/
structure GPU (F : Type) where
  boundTextures : Option (DepthCameraData F)
  c_hashParams : Option (HashParams F)
deriving DecidableEq, Repr

/-- The settings of `GlobalAppState` (declared outside this file) that
`garbageCollect` reads. -/
structure GlobalAppState where
  s_garbageCollectionEnabled : Bool
  s_garbageCollectionStarve : Nat
deriving DecidableEq, Repr

/-- The device entry points the orchestrator launches. -/
inductive Kernel where
  | resetCUDA
  | resetHashBucketMutexCUDA
  | allocCUDA
  | fillDecisionArrayCUDA
  | prefixSum
  | compactifyHashCUDA
  | integrateDepthMapCUDA
  | starveVoxelsKernelCUDA
  | garbageCollectIdentifyCUDA
  | garbageCollectFreeCUDA
deriving DecidableEq, Repr

/-- One launch, with what the launched code sees: the parameters passed by
the host and the device-global state at that moment. -/
structure Launch (F : Type) where
  kernel : Kernel
  params : HashParams F
  gpu : GPU F
deriving DecidableEq, Repr

/-- The functions `CUDASceneRepHashSDF.h` uses but does not define. -/
structure DeviceCode (F : Type) where
  toCUDA : mat4f F → mat4f F
  toMlib : mat4f F → mat4f F
  getInverse : mat4f F → mat4f F
  resetCUDA : GPU F → VoxelHashData F → HashParams F → VoxelHashData F
  resetHashBucketMutexCUDA : GPU F → VoxelHashData F → HashParams F → VoxelHashData F
  allocCUDA : GPU F → VoxelHashData F → HashParams F → DepthCameraData F →
    DepthCameraParams F → List Nat → VoxelHashData F
  fillDecisionArrayCUDA : GPU F → VoxelHashData F → HashParams F → DepthCameraData F →
    VoxelHashData F
  prefixSum : Nat → List Nat → List Nat → Nat × List Nat
  compactifyHashCUDA : GPU F → VoxelHashData F → HashParams F → VoxelHashData F
  integrateDepthMapCUDA : GPU F → VoxelHashData F → HashParams F → DepthCameraData F →
    DepthCameraParams F → VoxelHashData F
  starveVoxelsKernelCUDA : GPU F → VoxelHashData F → HashParams F → VoxelHashData F
  garbageCollectIdentifyCUDA : GPU F → VoxelHashData F → HashParams F → VoxelHashData F
  garbageCollectFreeCUDA : GPU F → VoxelHashData F → HashParams F → VoxelHashData F

/-- The orchestrator object together with the device-global state and the
list of launches made so far (oldest first). -/
structure CUDASceneRepHashSDF (F : Type) where
  m_hashParams : HashParams F
  m_hashData : VoxelHashData F
  m_numIntegratedFrames : Nat
  gpu : GPU F
  launches : List (Launch F)
deriving DecidableEq, Repr

/-! ## The orchestrator -/

section Orchestrator

variable {F : Type}

/-- Run one device entry point on the hash data and record the launch. -/
def launch (s : CUDASceneRepHashSDF F) (k : Kernel)
    (f : GPU F → VoxelHashData F → HashParams F → VoxelHashData F) : CUDASceneRepHashSDF F :=
  { s with
    m_hashData := f s.gpu s.m_hashData s.m_hashParams
    launches := s.launches ++ [{ kernel := k, params := s.m_hashParams, gpu := s.gpu }] }

/-- The call `m_hashData.updateParams(m_hashParams)`, which uploads the host
parameters to the device ("make sure numOccupiedBlocks is updated on the
GPU"). -/
def updateParams (s : CUDASceneRepHashSDF F) : CUDASceneRepHashSDF F :=
  { s with gpu := { s.gpu with c_hashParams := some s.m_hashParams } }

/-- Embeds `bindDepthCameraTextures`: the frame's depth and colour textures
become the bound ones. -/
def bindDepthCameraTextures (s : CUDASceneRepHashSDF F) (depthCameraData : DepthCameraData F) :
    CUDASceneRepHashSDF F :=
  { s with gpu := { s.gpu with boundTextures := some depthCameraData } }

/-- Embeds `setLastRigidTransform`. -/
def setLastRigidTransform (K : DeviceCode F) (s : CUDASceneRepHashSDF F)
    (lastRigidTransform : mat4f F) : CUDASceneRepHashSDF F :=
  let t := K.toCUDA lastRigidTransform
  { s with
    m_hashParams :=
      { s.m_hashParams with m_rigidTransform := t, m_rigidTransformInverse := K.getInverse t } }

/-- Embeds `getLastRigidTransform`. -/
def getLastRigidTransform (K : DeviceCode F) (s : CUDASceneRepHashSDF F) : mat4f F :=
  K.toMlib s.m_hashParams.m_rigidTransform

/-- Embeds `alloc`. -/
def alloc (K : DeviceCode F) (s : CUDASceneRepHashSDF F) (depthCameraData : DepthCameraData F)
    (depthCameraParams : DepthCameraParams F) (d_bitMask : List Nat) : CUDASceneRepHashSDF F :=
  let s := launch s Kernel.resetHashBucketMutexCUDA K.resetHashBucketMutexCUDA
  launch s Kernel.allocCUDA
    (fun g d p => K.allocCUDA g d p depthCameraData depthCameraParams d_bitMask)

/-- The statement `m_hashParams.m_numOccupiedBlocks = m_cudaScan.prefixSum(n,
d_hashDecision, d_hashDecisionPrefix)` of `compactifyHashEntries`, with
`n = m_hashNumBuckets * m_hashBucketSize`. -/
def scanDecisionArray (K : DeviceCode F) (s : CUDASceneRepHashSDF F) :
    CUDASceneRepHashSDF F :=
  let n := (s.m_hashParams.m_hashNumBuckets * s.m_hashParams.m_hashBucketSize) % UINT_MOD
  let r := K.prefixSum n s.m_hashData.d_hashDecision s.m_hashData.d_hashDecisionPrefix
  { s with
    m_hashParams := { s.m_hashParams with m_numOccupiedBlocks := r.1 }
    m_hashData := { s.m_hashData with d_hashDecisionPrefix := r.2 }
    launches := s.launches ++
      [{ kernel := Kernel.prefixSum, params := s.m_hashParams, gpu := s.gpu }] }

/-- Embeds `compactifyHashEntries`. -/
def compactifyHashEntries (K : DeviceCode F) (s : CUDASceneRepHashSDF F)
    (depthCameraData : DepthCameraData F) : CUDASceneRepHashSDF F :=
  let s := launch s Kernel.fillDecisionArrayCUDA
    (fun g d p => K.fillDecisionArrayCUDA g d p depthCameraData)
  let s := scanDecisionArray K s
  let s := updateParams s
  launch s Kernel.compactifyHashCUDA K.compactifyHashCUDA

/-- Embeds `integrateDepthMap`. -/
def integrateDepthMap (K : DeviceCode F) (s : CUDASceneRepHashSDF F)
    (depthCameraData : DepthCameraData F) (depthCameraParams : DepthCameraParams F) :
    CUDASceneRepHashSDF F :=
  launch s Kernel.integrateDepthMapCUDA
    (fun g d p => K.integrateDepthMapCUDA g d p depthCameraData depthCameraParams)

/-- The test `m_numIntegratedFrames > 0 && m_numIntegratedFrames % starve == 0`.
The right operand is evaluated only when the left one holds; a modulo by zero
has no value. -/
def starveDue (numIntegratedFrames starve : Nat) : Option Bool :=
  if 0 < numIntegratedFrames then
    if starve = 0 then none else some (numIntegratedFrames % starve == 0)
  else some false

/-- Embeds `garbageCollect`. -/
def garbageCollect (K : DeviceCode F) (gas : GlobalAppState) (s : CUDASceneRepHashSDF F)
    (_depthCameraData : DepthCameraData F) : Option (CUDASceneRepHashSDF F) :=
  if gas.s_garbageCollectionEnabled then
    match starveDue s.m_numIntegratedFrames gas.s_garbageCollectionStarve with
    | none => none
    | some due =>
      let s := if due then launch s Kernel.starveVoxelsKernelCUDA K.starveVoxelsKernelCUDA else s
      let s := launch s Kernel.garbageCollectIdentifyCUDA K.garbageCollectIdentifyCUDA
      let s := launch s Kernel.resetHashBucketMutexCUDA K.resetHashBucketMutexCUDA
      some (launch s Kernel.garbageCollectFreeCUDA K.garbageCollectFreeCUDA)
  else some s

/-- The statement `m_numIntegratedFrames++`. -/
def incrementFrames (s : CUDASceneRepHashSDF F) : CUDASceneRepHashSDF F :=
  { s with m_numIntegratedFrames := (s.m_numIntegratedFrames + 1) % UINT_MOD }

/-- Embeds `integrate`. -/
def integrate (K : DeviceCode F) (gas : GlobalAppState) (s : CUDASceneRepHashSDF F)
    (lastRigidTransform : mat4f F) (depthCameraData : DepthCameraData F)
    (depthCameraParams : DepthCameraParams F) (d_bitMask : List Nat) :
    Option (CUDASceneRepHashSDF F) :=
  let s := bindDepthCameraTextures s depthCameraData
  let s := setLastRigidTransform K s lastRigidTransform
  let s := updateParams s
  let s := alloc K s depthCameraData depthCameraParams d_bitMask
  let s := compactifyHashEntries K s depthCameraData
  let s := integrateDepthMap K s depthCameraData depthCameraParams
  (garbageCollect K gas s depthCameraData).map incrementFrames

/-- Embeds `integrate_multisensor`. Reading element `0` of an empty vector has
no value. -/
def integrate_multisensor (K : DeviceCode F) (gas : GlobalAppState) (s : CUDASceneRepHashSDF F)
    (lastRigidTransforms : List (mat4f F)) (depthCameraDatas : List (DepthCameraData F))
    (depthCameraParams : List (DepthCameraParams F)) (d_bitMasks : List (List Nat)) :
    Option (CUDASceneRepHashSDF F) :=
  match lastRigidTransforms[0]?, depthCameraDatas[0]?, depthCameraParams[0]?, d_bitMasks[0]? with
  | some t, some d, some p, some m =>
    let s := setLastRigidTransform K s t
    let s := updateParams s
    let s := alloc K s d p m
    let s := compactifyHashEntries K s d
    let s := integrateDepthMap K s d p
    (garbageCollect K gas s d).map incrementFrames
  | _, _, _, _ => none

/-- Embeds `reset`. -/
def reset [Zero F] [One F] (K : DeviceCode F) (s : CUDASceneRepHashSDF F) :
    CUDASceneRepHashSDF F :=
  let s : CUDASceneRepHashSDF F :=
    { s with
      m_numIntegratedFrames := 0
      m_hashParams :=
        { s.m_hashParams with
          m_rigidTransform := mat4f.identity
          m_rigidTransformInverse := mat4f.identity
          m_numOccupiedBlocks := 0 } }
  let s := updateParams s
  launch s Kernel.resetCUDA K.resetCUDA

/-- Embeds the constructor (`create`): the parameters are copied, the buffers
are allocated (`allocated` is whatever the fresh buffers hold, `frames` the
uninitialised counter) and `reset` runs. -/
def create [Zero F] [One F] (K : DeviceCode F) (params : HashParams F)
    (allocated : VoxelHashData F) (frames : Nat) (gpu : GPU F) : CUDASceneRepHashSDF F :=
  reset K
    { m_hashParams := params, m_hashData := allocated, m_numIntegratedFrames := frames,
      gpu := gpu, launches := [] }

end Orchestrator

/-! ## debugHash -/

/-- The ways `debugHash` can fail: the four `MLIB_EXCEPTION`s it throws, and
the accesses that have no defined result (an index past the end of `heapCPU`
or of `pointersFreeVec`, a division by a zero block size, a device buffer
shorter than the copy taken from it, a copy longer than the host array it is
written to). -/
inductive DebugError where
  | duplicateFreePointers
  | ptrOnFreeHeap
  | memoryLeak
  | heapCorrupted
  | heapReadOutOfRange
  | markerOutOfRange
  | divisionByZero
  | copyOutOfRange
  | hostBufferOverrun
deriving DecidableEq, Repr

/-- What `debugHash` prints when it runs to its end. -/
structure DebugReport where
  diff : Nat
  minOne : Nat
  numOccupied : Nat
  numFree : Nat
  numOccupiedPlusFree : Nat
  numInFrustum : Nat
deriving DecidableEq, Repr

/-- Body of the first loop of `debugHash` at index `i`: the free pointer
`heapCPU[i]` goes into the set `pointersFreeHash` (first component) and its
cell of `pointersFreeVec` (second component) is marked `FREE_ENTRY`. -/
def freeStackStep (heapCPU : List Nat) (i : Nat) (st : List Nat × List Nat) :
    Except DebugError (List Nat × List Nat) :=
  match heapCPU[i]? with
  | none => Except.error DebugError.heapReadOutOfRange
  | some v =>
    if v < st.2.length then Except.ok (st.1.insert v, st.2.set v (toUInt FREE_ENTRY))
    else Except.error DebugError.markerOutOfRange

/-- The first loop of `debugHash` after the given number of iterations,
started from the empty set and `N` markers `0`. -/
def freeStackLoop (heapCPU : List Nat) (N : Nat) : Nat → Except DebugError (List Nat × List Nat)
  | 0 => Except.ok ([], List.replicate N 0)
  | i + 1 =>
    match freeStackLoop heapCPU N i with
    | Except.error e => Except.error e
    | Except.ok st => freeStackStep heapCPU i st

/-- The locals the loop over the hash entries updates. -/
structure EntryScan where
  numOccupied : Nat
  numMinusOne : Nat
  l : List int3
  pointersFreeVec : List Nat
deriving DecidableEq, Repr

/-- Body of the loop over the hash entries. The division is the unsigned one:
`ptr` is converted to `unsigned int` first. -/
def entryStep (linearBlockSize : Nat) (pointersFreeHash : List Nat) (st : EntryScan)
    (e : HashEntry) : Except DebugError EntryScan :=
  let st := if e.ptr = -1 then { st with numMinusOne := (st.numMinusOne + 1) % UINT_MOD } else st
  if e.ptr ≠ -2 then
    if linearBlockSize = 0 then Except.error DebugError.divisionByZero
    else if toUInt e.ptr / linearBlockSize ∈ pointersFreeHash then
      Except.error DebugError.ptrOnFreeHeap
    else if toUInt e.ptr / linearBlockSize < st.pointersFreeVec.length then
      Except.ok
        { st with
          numOccupied := (st.numOccupied + 1) % UINT_MOD
          l := st.l ++ [e.pos]
          pointersFreeVec :=
            st.pointersFreeVec.set (toUInt e.ptr / linearBlockSize) (toUInt LOCK_ENTRY) }
    else Except.error DebugError.markerOutOfRange
  else Except.ok st

/-- The loop over the hash entries. -/
def entryLoop (linearBlockSize : Nat) (pointersFreeHash : List Nat) :
    EntryScan → List HashEntry → Except DebugError EntryScan
  | st, [] => Except.ok st
  | st, e :: es =>
    match entryStep linearBlockSize pointersFreeHash st e with
    | Except.error err => Except.error err
    | Except.ok st1 => entryLoop linearBlockSize pointersFreeHash st1 es

/-- The last loop of `debugHash`: it visits the cells of `pointersFreeVec`
(there are `N`) in order and counts the free and the occupied ones
(`numHeapFree`, `numHeapOccupied`). -/
def countLoop : Nat × Nat → List Nat → Except DebugError (Nat × Nat)
  | c, [] => Except.ok c
  | c, v :: vs =>
    if v = toUInt FREE_ENTRY then countLoop ((c.1 + 1) % UINT_MOD, c.2) vs
    else if v = toUInt LOCK_ENTRY then countLoop (c.1, (c.2 + 1) % UINT_MOD) vs
    else Except.error DebugError.memoryLeak

/-- The body of `debugHash` on the host copies: `N = m_numSDFBlocks`,
`B = m_SDFBlockSize`, `heapCounter` the value read from `d_heapCounter`
(`getHeapFreeCount()` is that value plus one). -/
def debugHashCPU (N B numInFrustum : Nat) (heapCPU : List Nat) (heapCounter : Nat)
    (hashCPU : List HashEntry) : Except DebugError DebugReport :=
  let heapCounterCPU := (heapCounter + 1) % UINT_MOD
  match freeStackLoop heapCPU N heapCounterCPU with
  | Except.error e => Except.error e
  | Except.ok (pointersFreeHash, pointersFreeVec) =>
    if pointersFreeHash.length ≠ heapCounterCPU then
      Except.error DebugError.duplicateFreePointers
    else
      match entryLoop ((B * B * B) % UINT_MOD) pointersFreeHash
          { numOccupied := 0, numMinusOne := 0, l := [], pointersFreeVec := pointersFreeVec }
          hashCPU with
      | Except.error e => Except.error e
      | Except.ok st =>
        match countLoop (0, 0) st.pointersFreeVec with
        | Except.error e => Except.error e
        | Except.ok c =>
          if (c.1 + c.2) % UINT_MOD = N then
            Except.ok
              { diff := st.l.length - st.l.dedup.length
                minOne := st.numMinusOne
                numOccupied := st.numOccupied
                numFree := (heapCounter + 1) % UINT_MOD
                numOccupiedPlusFree := (st.numOccupied + (heapCounter + 1) % UINT_MOD) % UINT_MOD
                numInFrustum := numInFrustum }
          else Except.error DebugError.heapCorrupted

/-- Embeds `debugHash`: the three `cudaMemcpy` calls, then the checks. The
host array `hashCPU` has `m_hashBucketSize*m_hashNumBuckets` cells, a product
of two `unsigned int`s that wraps modulo `2^32`; the copy into it takes
`sizeof(HashEntry)*m_hashBucketSize*m_hashNumBuckets` bytes, a product in
`size_t` (taken wide enough to hold it) that does not wrap at `2^32`, so with
`2^32` slots or more the copy runs past the end of `hashCPU`. -/
def debugHash {F : Type} (s : CUDASceneRepHashSDF F) : Except DebugError DebugReport :=
  let slots := s.m_hashParams.m_hashBucketSize * s.m_hashParams.m_hashNumBuckets
  if s.m_hashData.d_heap.length < s.m_hashParams.m_numSDFBlocks ∨
      s.m_hashData.d_hash.length < slots then
    Except.error DebugError.copyOutOfRange
  else if slots % UINT_MOD < slots then
    Except.error DebugError.hostBufferOverrun
  else
    debugHashCPU s.m_hashParams.m_numSDFBlocks s.m_hashParams.m_SDFBlockSize
      s.m_hashParams.m_numOccupiedBlocks (s.m_hashData.d_heap.take s.m_hashParams.m_numSDFBlocks)
      s.m_hashData.d_heapCounter (s.m_hashData.d_hash.take (slots % UINT_MOD))

/-- The free stack `debugHash` walks: the first `heapCounter + 1` heap cells. -/
def freeStack (heapCPU : List Nat) (heapCounter : Nat) : List Nat :=
  heapCPU.take ((heapCounter + 1) % UINT_MOD)

/-- The heap index `debugHash` derives from an entry: `ptr / B^3`, unsigned. -/
def brickIndex (B : Nat) (e : HashEntry) : Nat :=
  toUInt e.ptr / ((B * B * B) % UINT_MOD)

/-- Number of non-empty hash slots whose brick index is `i`. -/
def brickUsers (B : Nat) (hashCPU : List HashEntry) (i : Nat) : Nat :=
  (hashCPU.filter (fun e => decide (e.ptr ≠ FREE_ENTRY ∧ brickIndex B e = i))).length

/-- The snapshots `debugHash` is meant for: the number of bricks and the
number of hash slots are below `2^32`, the buffers have the sizes the
parameters give, every heap value is a brick index, the free stack fits in the
heap, the block size is not zero, and every hash entry is empty or holds a
voxel offset of one of the `N` bricks. -/
def SnapshotOk {F : Type} (s : CUDASceneRepHashSDF F) : Prop :=
  s.m_hashParams.m_numSDFBlocks < UINT_MOD ∧
  s.m_hashData.d_heap.length = s.m_hashParams.m_numSDFBlocks ∧
  (s.m_hashParams.m_hashBucketSize * s.m_hashParams.m_hashNumBuckets < UINT_MOD ∧
    s.m_hashData.d_hash.length =
      s.m_hashParams.m_hashBucketSize * s.m_hashParams.m_hashNumBuckets) ∧
  (∀ v ∈ s.m_hashData.d_heap, v < s.m_hashParams.m_numSDFBlocks) ∧
  (s.m_hashData.d_heapCounter + 1) % UINT_MOD ≤ s.m_hashParams.m_numSDFBlocks ∧
  (s.m_hashParams.m_SDFBlockSize * s.m_hashParams.m_SDFBlockSize *
    s.m_hashParams.m_SDFBlockSize) % UINT_MOD ≠ 0 ∧
  ∀ e ∈ s.m_hashData.d_hash,
    e.ptr = FREE_ENTRY ∨
      (0 ≤ e.ptr ∧ brickIndex s.m_hashParams.m_SDFBlockSize e < s.m_hashParams.m_numSDFBlocks)

/-- What the first loop of `debugHash` has established after `i` iterations. -/
def FreeInv (heapCPU : List Nat) (N i : Nat) (st : List Nat × List Nat) : Prop :=
  st.2.length = N ∧ (∀ x, x ∈ st.1 ↔ x ∈ heapCPU.take i) ∧ st.1.length ≤ i ∧
    (st.1.length = i ↔ (heapCPU.take i).Nodup) ∧
    ∀ j, j < N → st.2[j]? = some (if j ∈ heapCPU.take i then toUInt FREE_ENTRY else 0)

/-- Entries `debugHash` handles in range: empty slots, and slots whose brick
index `ptr / linearBlockSize` is below `N`. -/
def EntriesInRange (linearBlockSize N : Nat) (es : List HashEntry) : Prop :=
  ∀ e ∈ es, e.ptr = -2 ∨ toUInt e.ptr / linearBlockSize < N

/-- No non-empty slot points at a brick that is in the free set. -/
def NoneOnFreeHeap (linearBlockSize : Nat) (pointersFreeHash : List Nat) (es : List HashEntry) :
    Prop :=
  ∀ e ∈ es, e.ptr ≠ -2 → toUInt e.ptr / linearBlockSize ∉ pointersFreeHash

/-! ## Concrete configurations -/

/-- Parameters with the given table and heap sizes; the floats are integers
here, the pose is the identity. -/
def tinyParams (numBuckets bucketSize blockSize numBlocks : Nat) : HashParams Int :=
  { m_rigidTransform := mat4f.identity
    m_rigidTransformInverse := mat4f.identity
    m_hashNumBuckets := numBuckets
    m_hashBucketSize := bucketSize
    m_hashMaxCollisionLinkedListSize := 7
    m_SDFBlockSize := blockSize
    m_numSDFBlocks := numBlocks
    m_virtualVoxelSize := 1
    m_numOccupiedBlocks := 0
    m_maxIntegrationDistance := 4
    m_truncation := 1
    m_truncScale := 0
    m_integrationWeightSample := 1
    m_integrationWeightMax := 255
    m_streamingChunkExtents := { x := 1, y := 1, z := 1 }
    m_streamingGridDimensions := { x := 1, y := 1, z := 1 }
    m_streamingMinGridPos := { x := 0, y := 0, z := 0 }
    m_streamingInitialChunkListSize := 0 }

/-- Device buffers holding the given heap, heap counter and hash table. -/
def tinyData (heap : List Nat) (heapCounter : Nat) (hash : List HashEntry) : VoxelHashData Int :=
  { d_heap := heap
    d_heapCounter := heapCounter
    d_hash := hash
    d_hashDecision := hash.map (fun _ => 0)
    d_hashDecisionPrefix := hash.map (fun _ => 0)
    d_hashCompactified := hash.map (fun _ => 0)
    d_hashBucketMutex := []
    d_SDFBlocks := []
    d_overflowCounter := 0
    d_deleteFlags := [] }

/-- An orchestrator with the given parameters and buffers, nothing bound and
nothing launched yet. -/
def tinyScene (params : HashParams Int) (data : VoxelHashData Int) (frames : Nat) :
    CUDASceneRepHashSDF Int :=
  { m_hashParams := params
    m_hashData := data
    m_numIntegratedFrames := frames
    gpu := { boundTextures := none, c_hashParams := none }
    launches := [] }

/-- Two bricks of `8^3` voxels; brick `1` is on the free stack and two hash
entries both point into brick `0`. -/
def sharedBrickScene : CUDASceneRepHashSDF Int :=
  tinyScene (tinyParams 2 1 8 2)
    (tinyData [1, 0] 0
      [{ pos := { x := 0, y := 0, z := 0 }, offset := 0, ptr := 0 },
       { pos := { x := 1, y := 0, z := 0 }, offset := 0, ptr := 0 }]) 3

/-- Two bricks of `8^3` voxels; brick `1` is on the free stack, one hash entry
points into brick `0`, the other slot is empty. -/
def soundScene : CUDASceneRepHashSDF Int :=
  tinyScene (tinyParams 2 1 8 2)
    (tinyData [1, 0] 0
      [{ pos := { x := 0, y := 0, z := 0 }, offset := 0, ptr := 0 },
       { pos := { x := 0, y := 0, z := 0 }, offset := 0, ptr := -2 }]) 3

/-! ## Vocabulary of the statements about the orchestrator -/

/-- The kernels launched so far, oldest first. -/
def launchedKernels {F : Type} (s : CUDASceneRepHashSDF F) : List Kernel :=
  s.launches.map Launch.kernel

/-- The kernels one call of `garbageCollect` launches at frame counter `k`:
nothing when garbage collection is disabled; otherwise identify, the mutex
reset and free, after the starve kernel when `k > 0` and `k` is a multiple of
the starve period. -/
def collectKernels (gas : GlobalAppState) (k : Nat) : List Kernel :=
  if gas.s_garbageCollectionEnabled = true then
    (if 0 < k ∧ k % gas.s_garbageCollectionStarve = 0 then [Kernel.starveVoxelsKernelCUDA]
      else []) ++
      [Kernel.garbageCollectIdentifyCUDA, Kernel.resetHashBucketMutexCUDA,
        Kernel.garbageCollectFreeCUDA]
  else []

/-- The kernels of one frame up to the integration pass, in the order the
specification gives: mutex reset, allocation, the three steps of compaction,
depth integration. -/
def frameKernels : List Kernel :=
  [Kernel.resetHashBucketMutexCUDA, Kernel.allocCUDA, Kernel.fillDecisionArrayCUDA,
    Kernel.prefixSum, Kernel.compactifyHashCUDA, Kernel.integrateDepthMapCUDA]

/-- The orchestrator state `integrate` hands to `garbageCollect`. -/
def beforeCollect {F : Type} (K : DeviceCode F) (s : CUDASceneRepHashSDF F)
    (lastRigidTransform : mat4f F) (depthCameraData : DepthCameraData F)
    (depthCameraParams : DepthCameraParams F) (d_bitMask : List Nat) : CUDASceneRepHashSDF F :=
  integrateDepthMap K
    (compactifyHashEntries K
      (alloc K
        (updateParams (setLastRigidTransform K (bindDepthCameraTextures s depthCameraData)
          lastRigidTransform))
        depthCameraData depthCameraParams d_bitMask)
      depthCameraData)
    depthCameraData depthCameraParams

/-- What `reset` is to establish on an orchestrator whose parameters were
`p`: frame counter `0`, pose and inverse pose the identity, no occupied
block, the heap free stack `heap[i] = N-1-i` with `heapCounter = N-1` (as an
`unsigned int`), every hash entry empty, every other parameter as in `p`. -/
def IsResetState {F : Type} [Zero F] [One F] (p : HashParams F) (r : CUDASceneRepHashSDF F) :
    Prop :=
  r.m_numIntegratedFrames = 0 ∧
  r.m_hashParams.m_rigidTransform = mat4f.identity ∧
  r.m_hashParams.m_rigidTransformInverse = mat4f.identity ∧
  r.m_hashParams.m_numOccupiedBlocks = 0 ∧
  r.m_hashData.d_heap.length = p.m_numSDFBlocks ∧
  (∀ i, i < p.m_numSDFBlocks → r.m_hashData.d_heap[i]? = some (p.m_numSDFBlocks - 1 - i)) ∧
  r.m_hashData.d_heapCounter = (p.m_numSDFBlocks + (UINT_MOD - 1)) % UINT_MOD ∧
  (0 < p.m_numSDFBlocks → p.m_numSDFBlocks ≤ UINT_MOD →
    r.m_hashData.d_heapCounter = p.m_numSDFBlocks - 1) ∧
  (∀ e ∈ r.m_hashData.d_hash, e.ptr = FREE_ENTRY) ∧
  r.m_hashParams =
    { p with
      m_rigidTransform := mat4f.identity
      m_rigidTransformInverse := mat4f.identity
      m_numOccupiedBlocks := 0 }

/-- The number of hash slots the compaction pass scans,
`m_hashNumBuckets * m_hashBucketSize` as an `unsigned int`. -/
def slotCount {F : Type} (p : HashParams F) : Nat :=
  (p.m_hashNumBuckets * p.m_hashBucketSize) % UINT_MOD

/-- The decision array `compactifyHashEntries` hands to the scan: the one
`fillDecisionArrayCUDA` leaves behind. -/
def decisionAfterFill {F : Type} (K : DeviceCode F) (s : CUDASceneRepHashSDF F)
    (d : DepthCameraData F) : List Nat :=
  (K.fillDecisionArrayCUDA s.gpu s.m_hashData s.m_hashParams d).d_hashDecision

/-- The prefix array the scan in `compactifyHashEntries` writes. -/
def scanAfterFill {F : Type} (K : DeviceCode F) (s : CUDASceneRepHashSDF F)
    (d : DepthCameraData F) : List Nat :=
  (K.prefixSum (slotCount s.m_hashParams) (decisionAfterFill K s d)
    (K.fillDecisionArrayCUDA s.gpu s.m_hashData s.m_hashParams d).d_hashDecisionPrefix).2

/-- The parameters in force during a call of `integrate` with the given
pose, before compaction sets `m_numOccupiedBlocks`. -/
def withPose {F : Type} (K : DeviceCode F) (p : HashParams F) (pose : mat4f F) : HashParams F :=
  { p with
    m_rigidTransform := K.toCUDA pose
    m_rigidTransformInverse := K.getInverse (K.toCUDA pose) }

/-- A depth frame whose dimensions are not the configured image dimensions. -/
def dimsDisagree {F : Type} (d : DepthCameraData F) (p : DepthCameraParams F) : Prop :=
  d.width ≠ p.m_imageWidth ∨ d.height ≠ p.m_imageHeight

/-- A depth image without a valid pixel (`0` marks an invalid pixel). -/
def allInvalid {F : Type} [Zero F] (d : DepthCameraData F) : Prop :=
  ∀ x ∈ d.d_depthData, x = 0

/-- The states reached from a `reset` by `integrate` calls. -/
inductive Reachable {F : Type} [Zero F] [One F] (K : DeviceCode F) (gas : GlobalAppState) :
    CUDASceneRepHashSDF F → Prop where
  | reset (s : CUDASceneRepHashSDF F) : Reachable K gas (reset K s)
  | integrate (s t : CUDASceneRepHashSDF F) (pose : mat4f F) (d : DepthCameraData F)
      (p : DepthCameraParams F) (m : List Nat) :
      Reachable K gas s → integrate K gas s pose d p m = some t → Reachable K gas t

/-! ## The device code as the specification describes it

The kernels are defined in `.cu` files and the scan in `CUDAScan.h`; the
header only declares them. The definitions below follow the specification's
text. What the specification computes in floating point (projection, frustum
test, voxel update, distance threshold) or leaves to the thread schedule
(concurrent insertion and removal) is a field of `DeviceOps`. -/

namespace SpecModel

/-- The parts of the kernels that the specification computes in floating
point or leaves to the thread schedule, as parameters of the model. -/
structure DeviceOps (F : Type) where
  /-- The depth `d` is beyond `maxIntegrationDistance`. -/
  tooFar : HashParams F → F → Bool
  /-- The mask clears pixel `i`. -/
  maskClears : List Nat → Nat → Bool
  /-- The bricks the truncation segment of pixel `i` at depth `d` passes through. -/
  rayBricks : HashParams F → DepthCameraParams F → Nat → F → List int3
  /-- The hash table's `insert(pos)`. -/
  insert : VoxelHashData F → HashParams F → int3 → VoxelHashData F
  /-- The brick lies in the view frustum of the current pose. -/
  inFrustum : HashParams F → int3 → Bool
  /-- The per-voxel running-average update of the compacted bricks. -/
  updateVoxels : VoxelHashData F → HashParams F → DepthCameraData F → DepthCameraParams F →
    List (Voxel F)
  /-- The smallest `|sdf|` of the voxels of a brick exceeds `threshold·truncation`. -/
  farFromSurface : HashParams F → List (Voxel F) → Bool
  /-- The thread freeing the brick at compacted position `i` gets through (it
  does not lose its bucket to another thread). -/
  removeWins : VoxelHashData F → HashParams F → Nat → Bool
  /-- The hash table after `remove` has cleared the given slot and repaired
  the chain of its bucket. -/
  unlink : List HashEntry → Nat → List HashEntry

/-- Modelled from the spec: `resetCUDA`, declared in the header and defined
in a `.cu` file. It "reinitializes the heap free stack" (`heap[i] = N-1-i`,
`heapCounter = N-1` as an `unsigned int`) and "clears all hash entries to
`FREE_ENTRY`". -/
def resetCUDA {F : Type} (_g : GPU F) (d : VoxelHashData F) (p : HashParams F) :
    VoxelHashData F :=
  { d with
    d_heap := (List.range p.m_numSDFBlocks).map (fun i => p.m_numSDFBlocks - 1 - i)
    d_heapCounter := (p.m_numSDFBlocks + (UINT_MOD - 1)) % UINT_MOD
    d_hash := d.d_hash.map (fun e => { e with ptr := FREE_ENTRY }) }

/-- Modelled from the spec: `resetHashBucketMutexCUDA`, which resets the
per-bucket mutex words to zero. -/
def resetHashBucketMutexCUDA {F : Type} (_g : GPU F) (d : VoxelHashData F) (p : HashParams F) :
    VoxelHashData F :=
  { d with d_hashBucketMutex := List.replicate p.m_hashNumBuckets 0 }

/-- Modelled from the spec: the exclusive prefix sums of a list, started at
`acc`, over 32-bit integers. -/
def exclusiveScan (acc : Nat) : List Nat → List Nat
  | [] => []
  | x :: xs => acc :: exclusiveScan ((acc + x) % UINT_MOD) xs

/-- Modelled from the spec: `CUDAScan::prefixSum`, the scan utility
`exclusivePrefixSum(n, in[], out[]) → total` over 32-bit integers. The first
`n` cells of the output receive the exclusive prefix sums of the first `n`
inputs; the total is `in[last] + out[last]` (`0` when nothing is scanned). -/
def prefixSum (n : Nat) (input output : List Nat) : Nat × List Nat :=
  let scanned := exclusiveScan 0 (input.take n)
  (((input.take n).getLastD 0 + scanned.getLastD 0) % UINT_MOD, scanned ++ output.drop n)

/-- Modelled from the spec: the allocation pass for one pixel (index and
depth): skipped when the depth is invalid, beyond the integration distance or
masked out, otherwise every brick of its segment is inserted. -/
def allocPixel {F : Type} [Zero F] [DecidableEq F] (O : DeviceOps F) (p : HashParams F)
    (dcp : DepthCameraParams F) (mask : List Nat) (d : VoxelHashData F) (px : Nat × F) :
    VoxelHashData F :=
  if px.2 = 0 ∨ O.tooFar p px.2 = true ∨ O.maskClears mask px.1 = true then d
  else (O.rayBricks p dcp px.1 px.2).foldl (fun acc b => O.insert acc p b) d

/-- Modelled from the spec: `allocCUDA`, the allocator pass over the pixels
of the depth image. -/
def allocCUDA {F : Type} [Zero F] [DecidableEq F] (O : DeviceOps F) (_g : GPU F)
    (d : VoxelHashData F) (p : HashParams F) (dcd : DepthCameraData F)
    (dcp : DepthCameraParams F) (mask : List Nat) : VoxelHashData F :=
  dcd.d_depthData.enum.foldl (allocPixel O p dcp mask) d

/-- Modelled from the spec: the flag the compaction pass gives a hash slot,
`1` if `ptr ≥ 0` and the brick is in the view frustum of the current pose,
else `0`. -/
def decisionFlag {F : Type} (O : DeviceOps F) (p : HashParams F) (e : HashEntry) : Nat :=
  if 0 ≤ e.ptr ∧ O.inFrustum p e.pos = true then 1 else 0

/-- Modelled from the spec: `fillDecisionArrayCUDA`, which writes the flag of
every hash slot into the decision array. -/
def fillDecisionArrayCUDA {F : Type} (O : DeviceOps F) (_g : GPU F) (d : VoxelHashData F)
    (p : HashParams F) (_dcd : DepthCameraData F) : VoxelHashData F :=
  { d with d_hashDecision := d.d_hash.map (decisionFlag O p) }

/-- Modelled from the spec: one step of the scatter; where the decision of
slot `i` is `1`, the slot index goes to `compacted[prefix[i]]`. -/
def scatterStep (decision scanned : List Nat) (compacted : List Nat) (i : Nat) : List Nat :=
  if decision[i]? = some 1 then compacted.set (scanned[i]?.getD 0) i else compacted

/-- Modelled from the spec: `compactifyHashCUDA`, the scatter of the
compaction pass. -/
def compactifyHashCUDA {F : Type} (_g : GPU F) (d : VoxelHashData F) (_p : HashParams F) :
    VoxelHashData F :=
  { d with
    d_hashCompactified :=
      (List.range d.d_hashDecision.length).foldl
        (scatterStep d.d_hashDecision d.d_hashDecisionPrefix) d.d_hashCompactified }

/-- Modelled from the spec: `integrateDepthMapCUDA`; the integration pass
mutates voxel data only. -/
def integrateDepthMapCUDA {F : Type} (O : DeviceOps F) (_g : GPU F) (d : VoxelHashData F)
    (p : HashParams F) (dcd : DepthCameraData F) (dcp : DepthCameraParams F) :
    VoxelHashData F :=
  { d with d_SDFBlocks := O.updateVoxels d p dcd dcp }

/-- Modelled from the spec: the voxels of the brick of a hash entry, the `B^3`
voxels from the voxel offset `ptr` on. -/
def brickVoxels {F : Type} (d : VoxelHashData F) (p : HashParams F) (e : HashEntry) :
    List (Voxel F) :=
  (d.d_SDFBlocks.drop e.ptr.toNat).take (p.m_SDFBlockSize * p.m_SDFBlockSize * p.m_SDFBlockSize)

/-- Modelled from the spec: the hash entries of the compacted bricks, the
first `numOccupiedBlocks` cells of the compacted index array. -/
def compactedEntries {F : Type} (d : VoxelHashData F) (p : HashParams F) : List HashEntry :=
  (d.d_hashCompactified.take p.m_numOccupiedBlocks).filterMap (fun slot => d.d_hash[slot]?)

/-- Modelled from the spec: voxel number `v` belongs to a compacted brick. -/
def inCompactedBrick {F : Type} (d : VoxelHashData F) (p : HashParams F) (v : Nat) : Bool :=
  (compactedEntries d p).any (fun e =>
    decide (0 ≤ e.ptr ∧ e.ptr.toNat ≤ v ∧
      v < e.ptr.toNat + p.m_SDFBlockSize * p.m_SDFBlockSize * p.m_SDFBlockSize))

/-- Modelled from the spec: `starveVoxelsKernelCUDA`; for each compacted
brick, each voxel's weight is decremented by 1 (floor 0). -/
def starveVoxelsKernelCUDA {F : Type} (_g : GPU F) (d : VoxelHashData F) (p : HashParams F) :
    VoxelHashData F :=
  { d with
    d_SDFBlocks := d.d_SDFBlocks.enum.map (fun vx =>
      if inCompactedBrick d p vx.1 = true then { vx.2 with weight := vx.2.weight - 1 }
      else vx.2) }

/-- Modelled from the spec: the largest weight among the voxels of a brick. -/
def maxWeight {F : Type} (voxels : List (Voxel F)) : Nat :=
  voxels.foldl (fun w x => max w x.weight) 0

/-- Modelled from the spec: `garbageCollectIdentifyCUDA`; for each compacted
brick the flag `1` goes to the scratch array when `maxWeight == 0` or
`minAbsSdf > threshold·truncation`, else `0`. -/
def garbageCollectIdentifyCUDA {F : Type} (O : DeviceOps F) (_g : GPU F) (d : VoxelHashData F)
    (p : HashParams F) : VoxelHashData F :=
  { d with
    d_deleteFlags := (d.d_hashCompactified.take p.m_numOccupiedBlocks).map (fun slot =>
      match d.d_hash[slot]? with
      | some e =>
        if maxWeight (brickVoxels d p e) = 0 ∨ O.farFromSurface p (brickVoxels d p e) = true
        then 1 else 0
      | none => 0) }

/-- Modelled from the spec: the free pass at compacted position `i`. A brick
marked for deletion whose thread gets through is freed: the heap counter is
incremented and the brick index (`ptr / B^3`, as `debugHash` reads it) stored
at the new position (`free(idx)` of the brick heap), and the hash entry is
removed from the table. -/
def freeStep {F : Type} (O : DeviceOps F) (p : HashParams F) (d : VoxelHashData F) (i : Nat) :
    VoxelHashData F :=
  if d.d_deleteFlags[i]? = some 1 ∧ O.removeWins d p i = true then
    match d.d_hashCompactified[i]? with
    | none => d
    | some slot =>
      match d.d_hash[slot]? with
      | none => d
      | some e =>
        { d with
          d_heapCounter := (d.d_heapCounter + 1) % UINT_MOD
          d_heap := d.d_heap.set ((d.d_heapCounter + 1) % UINT_MOD)
            (e.ptr.toNat / (p.m_SDFBlockSize * p.m_SDFBlockSize * p.m_SDFBlockSize))
          d_hash := O.unlink d.d_hash slot }
  else d

/-- Modelled from the spec: `garbageCollectFreeCUDA`, the free pass over the
compacted positions. -/
def garbageCollectFreeCUDA {F : Type} (O : DeviceOps F) (_g : GPU F) (d : VoxelHashData F)
    (p : HashParams F) : VoxelHashData F :=
  (List.range p.m_numOccupiedBlocks).foldl (freeStep O p) d

/-- The device code of the specification: the kernels and the scan as above;
the matrix helpers are those of `K`. -/
def kernels {F : Type} [Zero F] [DecidableEq F] (K : DeviceCode F) (O : DeviceOps F) :
    DeviceCode F :=
  { K with
    resetCUDA := resetCUDA
    resetHashBucketMutexCUDA := resetHashBucketMutexCUDA
    allocCUDA := allocCUDA O
    fillDecisionArrayCUDA := fillDecisionArrayCUDA O
    prefixSum := prefixSum
    compactifyHashCUDA := compactifyHashCUDA
    integrateDepthMapCUDA := integrateDepthMapCUDA O
    starveVoxelsKernelCUDA := starveVoxelsKernelCUDA
    garbageCollectIdentifyCUDA := garbageCollectIdentifyCUDA O
    garbageCollectFreeCUDA := garbageCollectFreeCUDA O }

/-- The number of hash slots among the first `n` that are allocated and in
the frustum for the parameters `p`. -/
def occupiedInFrustum {F : Type} (O : DeviceOps F) (p : HashParams F) (n : Nat)
    (hash : List HashEntry) : Nat :=
  ((hash.take n).filter (fun e => decide (0 ≤ e.ptr ∧ O.inFrustum p e.pos = true))).length

end SpecModel

/-! ## A one-brick world

A concrete device for evaluating the pipeline: floats are integers, the
camera sits on the z axis at height `m34` of its pose and looks along `+z`,
bricks are single voxels of size `1`, and one thread at a time inserts. -/

namespace OneBrick

/-- A 32-bit pattern read as a C `int`. -/
def toInt (h : Nat) : Int :=
  if h % UINT_MOD < 2147483648 then ((h % UINT_MOD : Nat) : Int)
  else ((h % UINT_MOD : Nat) : Int) - (UINT_MOD : Int)

/-- Modelled from the spec: the bucket of a brick coordinate,
`((x·p₁) xor (y·p₂) xor (z·p₃)) mod numBuckets` with the three primes of the
specification, "bias-added so it is always non-negative". -/
def bucketOf (numBuckets : Nat) (pos : int3) : Nat :=
  let h := Nat.xor (Nat.xor (toUInt (pos.x * 73856093)) (toUInt (pos.y * 19349669)))
    (toUInt (pos.z * 83492791))
  let res := Int.tmod (toInt h) (numBuckets : Int)
  (if res < 0 then res + (numBuckets : Int) else res).toNat

/-- Modelled from the spec: the hash table's `insert(pos)` run by a single
thread, so that no bucket is contended. A brick already present is left
alone; otherwise the first free head slot of the bucket is claimed and gets a
brick popped from the heap (`heap[heapCounter]`, then the counter is
decremented); the slot's `ptr` is the voxel offset of the brick, which
`debugHash` divides by `B^3`. With the bucket full or the heap exhausted the
insertion is dropped (overflow chains are not modelled). -/
def soloInsert (d : VoxelHashData Int) (p : HashParams Int) (pos : int3) : VoxelHashData Int :=
  let slots := (List.range p.m_hashBucketSize).map
    (fun k => bucketOf p.m_hashNumBuckets pos * p.m_hashBucketSize + k)
  let present := slots.any (fun i =>
    match d.d_hash[i]? with
    | some e => decide (0 ≤ e.ptr ∧ e.pos = pos)
    | none => false)
  if present then d
  else
    match slots.find? (fun i =>
        match d.d_hash[i]? with
        | some e => decide (e.ptr = FREE_ENTRY)
        | none => false) with
    | none => d
    | some i =>
      match d.d_heap[d.d_heapCounter]? with
      | none => d
      | some brick =>
        { d with
          d_hash := d.d_hash.set i
            { pos := pos, offset := 0,
              ptr := ((brick * (p.m_SDFBlockSize * p.m_SDFBlockSize * p.m_SDFBlockSize) : Nat) : Int) }
          d_heapCounter := (d.d_heapCounter + (UINT_MOD - 1)) % UINT_MOD }

/-- Modelled from the spec: the integration pass on one voxel of the brick of
entry `e`, seen by the single pixel of the frame at depth `depth`. An invalid
depth or a voxel behind the surface past the truncation is skipped; otherwise
the clamped signed distance enters the running average and the weight grows
by `integrationWeightSample` up to `integrationWeightMax`. -/
def integrateVoxel (p : HashParams Int) (depth : Int) (e : HashEntry) (x : Voxel Int) :
    Voxel Int :=
  let sdf := depth - (e.pos.z - p.m_rigidTransform.m34)
  if depth = 0 ∨ sdf < -p.m_truncation then x
  else
    { x with
      sdf := (x.sdf * (x.weight : Int) + min sdf p.m_truncation * (p.m_integrationWeightSample : Int))
        / ((x.weight : Int) + (p.m_integrationWeightSample : Int))
      weight := min (x.weight + p.m_integrationWeightSample) p.m_integrationWeightMax }

/-- Modelled from the spec: the integration pass over the voxel buffer; the
voxels of compacted bricks are updated from the first pixel of the frame. -/
def updateVoxels (d : VoxelHashData Int) (p : HashParams Int) (dcd : DepthCameraData Int)
    (_dcp : DepthCameraParams Int) : List (Voxel Int) :=
  d.d_SDFBlocks.enum.map (fun vx =>
    match (SpecModel.compactedEntries d p).find? (fun e =>
        decide (0 ≤ e.ptr ∧ e.ptr.toNat ≤ vx.1 ∧
          vx.1 < e.ptr.toNat + p.m_SDFBlockSize * p.m_SDFBlockSize * p.m_SDFBlockSize)) with
    | some e => integrateVoxel p (dcd.d_depthData[0]?.getD 0) e vx.2
    | none => vx.2)

/-- The geometry of the one-brick world: a pixel at depth `d` hits the brick
`(0, 0, m34 + d)`; a brick is in the frustum when it lies in front of the
camera; a set mask bit clears its pixel; a brick is far from the surface when
every voxel has `|sdf|` above the truncation; the thread freeing a brick
always gets through and `remove` clears the slot to `FREE_ENTRY`. -/
def ops : SpecModel.DeviceOps Int :=
  { tooFar := fun p d => decide (p.m_maxIntegrationDistance ≤ d)
    maskClears := fun mask i => decide ((mask[i / 32]?.getD 0 / 2 ^ (i % 32)) % 2 = 1)
    rayBricks := fun p _ _ d => [{ x := 0, y := 0, z := p.m_rigidTransform.m34 + d }]
    insert := soloInsert
    inFrustum := fun p pos => decide (p.m_rigidTransform.m34 < pos.z)
    updateVoxels := updateVoxels
    farFromSurface := fun p voxels => voxels.all (fun x => decide (p.m_truncation < |x.sdf|))
    removeWins := fun _ _ _ => true
    unlink := fun hash slot =>
      match hash[slot]? with
      | some e => hash.set slot { e with offset := 0, ptr := FREE_ENTRY }
      | none => hash }

/-- The inverse of a translation. -/
def translationInverse (t : mat4f Int) : mat4f Int :=
  { t with m14 := -t.m14, m24 := -t.m24, m34 := -t.m34 }

/-- Matrix helpers that copy the matrix, and kernels that leave the buffers
as they are. -/
def idle : DeviceCode Int :=
  { toCUDA := fun t => t
    toMlib := fun t => t
    getInverse := translationInverse
    resetCUDA := fun _ d _ => d
    resetHashBucketMutexCUDA := fun _ d _ => d
    allocCUDA := fun _ d _ _ _ _ => d
    fillDecisionArrayCUDA := fun _ d _ _ => d
    prefixSum := fun _ _ out => (0, out)
    compactifyHashCUDA := fun _ d _ => d
    integrateDepthMapCUDA := fun _ d _ _ _ => d
    starveVoxelsKernelCUDA := fun _ d _ => d
    garbageCollectIdentifyCUDA := fun _ d _ => d
    garbageCollectFreeCUDA := fun _ d _ => d }

/-- The device of the one-brick world: the kernels of the specification over
`ops`. -/
def device : DeviceCode Int := SpecModel.kernels idle ops

/-- A device like `device` whose allocation kernel samples the depth image
through the bound texture, whatever frame it is passed. -/
def textureDevice : DeviceCode Int :=
  { device with
    allocCUDA := fun g d p dcd dcp mask =>
      match g.boundTextures with
      | some bound => SpecModel.allocCUDA ops g d p bound dcp mask
      | none => SpecModel.allocCUDA ops g d p { dcd with d_depthData := [] } dcp mask }

/-- The camera at the origin moved to height `z`. -/
def poseAt (z : Int) : mat4f Int := { (mat4f.identity : mat4f Int) with m34 := z }

/-- A one-pixel depth frame. -/
def frame (depth : Int) : DepthCameraData Int :=
  { width := 1, height := 1, d_depthData := [depth], d_colorData := [0] }

/-- Intrinsics of a `width x height` camera. -/
def camera (width height : Nat) : DepthCameraParams Int :=
  { m_imageWidth := width, m_imageHeight := height, fx := 1, fy := 1, mx := 0, my := 0 }

/-- Garbage collection switched off. -/
def noCollect : GlobalAppState :=
  { s_garbageCollectionEnabled := false, s_garbageCollectionStarve := 15 }

/-- Garbage collection every frame, starving every 15 frames. -/
def collect : GlobalAppState :=
  { s_garbageCollectionEnabled := true, s_garbageCollectionStarve := 15 }

/-- Garbage collection every frame, starving every frame after the first. -/
def starving : GlobalAppState :=
  { s_garbageCollectionEnabled := true, s_garbageCollectionStarve := 1 }

/-- A freshly constructed orchestrator with one bucket of one slot and one
brick of one voxel. -/
def fresh : CUDASceneRepHashSDF Int :=
  create device (tinyParams 1 1 1 1)
    (tinyData [7] 9 [{ pos := { x := 3, y := 3, z := 3 }, offset := 0, ptr := 5 }]) 12
    { boundTextures := none, c_hashParams := none }

/-- The state after integrating, from `fresh`, one frame that sees a surface
at depth `2` from the origin. -/
def afterFirstFrame : Option (CUDASceneRepHashSDF Int) :=
  integrate device noCollect fresh (poseAt 0) (frame 2) (camera 1 1) []

/-- The state after the first frame, a brick at depth `2` in the table
(`fresh` if that frame did not return). -/
def seen : CUDASceneRepHashSDF Int := afterFirstFrame.getD fresh

/-- A freshly constructed orchestrator like `fresh` whose voxel buffer holds
the one voxel of its one brick. -/
def freshVoxel : CUDASceneRepHashSDF Int :=
  create device (tinyParams 1 1 1 1)
    { tinyData [7] 9 [{ pos := { x := 3, y := 3, z := 3 }, offset := 0, ptr := 5 }] with
      d_SDFBlocks := [{ sdf := 0, weight := 0, color := (0, 0, 0) }] } 12
    { boundTextures := none, c_hashParams := none }

/-- The state after integrating, from `freshVoxel` and with garbage collection
starving every frame, one frame that sees a surface at depth `2` from the
origin (`freshVoxel` if that frame did not return). -/
def seenCollect : CUDASceneRepHashSDF Int :=
  (integrate device starving freshVoxel (poseAt 0) (frame 2) (camera 1 1) []).getD freshVoxel

/-- An orchestrator of `textureDevice` with a table of two slots and two
bricks, after a first frame without a valid pixel: that frame's textures are
still bound. -/
def staleStart : Option (CUDASceneRepHashSDF Int) :=
  integrate textureDevice noCollect
    (create textureDevice (tinyParams 1 2 1 2)
      (tinyData [0, 0] 0
        [{ pos := { x := 0, y := 0, z := 0 }, offset := 0, ptr := 0 },
         { pos := { x := 0, y := 0, z := 0 }, offset := 0, ptr := 0 }]) 0
      { boundTextures := none, c_hashParams := none })
    (poseAt 0) (frame 0) (camera 1 1) []

end OneBrick

/-! ## Facts about `debugHash` -/

theorem freeStackLoop_ok (heapCPU : List Nat) (N : Nat) :
    ∀ i, i ≤ heapCPU.length → (∀ v ∈ heapCPU.take i, v < N) →
      ∃ st, freeStackLoop heapCPU N i = Except.ok st ∧ FreeInv heapCPU N i st := by
  intro i
  induction i with
  | zero =>
    intro _ _
    refine ⟨([], List.replicate N 0), rfl, ?_⟩
    refine ⟨by simp, by simp, by simp, by simp, ?_⟩
    intro j hj
    simp [List.getElem?_replicate, hj]
  | succ i ih =>
    intro hi hv
    have hlt : i < heapCPU.length := hi
    have htake : heapCPU.take (i + 1) = heapCPU.take i ++ [heapCPU[i]] := by
      rw [List.take_succ, List.getElem?_eq_getElem hlt]; rfl
    have hv1 : ∀ v ∈ heapCPU.take i, v < N := by
      intro v hm
      apply hv
      rw [htake]
      exact List.mem_append_left _ hm
    have hvi : heapCPU[i] < N := by
      apply hv
      rw [htake]
      exact List.mem_append_right _ (List.mem_singleton.mpr rfl)
    obtain ⟨st, hst, hlen, hmem, hle, hnd, hvec⟩ := ih (Nat.le_of_lt hlt) hv1
    refine ⟨(st.1.insert heapCPU[i], st.2.set heapCPU[i] (toUInt FREE_ENTRY)), ?_, ?_⟩
    · simp only [freeStackLoop, hst, freeStackStep, List.getElem?_eq_getElem hlt, hlen, hvi,
        if_true]
    · refine ⟨by simp [hlen], ?_, ?_, ?_, ?_⟩
      · intro x
        rw [htake, List.mem_insert_iff, hmem x]
        simp only [List.mem_append, List.mem_singleton]
        tauto
      · by_cases hin : heapCPU[i] ∈ st.1
        · simp only [List.length_insert_of_mem hin]; omega
        · simp only [List.length_insert_of_not_mem hin]; omega
      · rw [htake, List.nodup_append]
        by_cases hin : heapCPU[i] ∈ st.1
        · simp only [List.length_insert_of_mem hin]
          constructor
          · intro h; omega
          · rintro ⟨_, _, hdis⟩
            exact absurd (List.mem_singleton.mpr rfl) (hdis ((hmem _).1 hin))
        · simp only [List.length_insert_of_not_mem hin]
          constructor
          · intro h
            refine ⟨hnd.1 (by omega), List.nodup_singleton _, ?_⟩
            intro x hx hx2
            rw [List.mem_singleton] at hx2
            subst hx2
            exact hin ((hmem _).2 hx)
          · rintro ⟨h1, _, _⟩
            have := hnd.2 h1
            omega
      · intro j hj
        rw [List.getElem?_set, htake]
        by_cases hji : heapCPU[i] = j
        · simp [hji, hlen, hj]
        · have hji2 : ¬ j = heapCPU[i] := fun h => hji h.symm
          simp only [hji, if_false, hvec j hj, List.mem_append, List.mem_singleton, hji2,
            or_false]

theorem freeStackLoop_not_marker (heapCPU : List Nat) (N : Nat) :
    ∀ i, (∀ v ∈ heapCPU.take i, v < N) →
      (∃ st, freeStackLoop heapCPU N i = Except.ok st ∧ st.2.length = N) ∨
        freeStackLoop heapCPU N i = Except.error DebugError.heapReadOutOfRange := by
  intro i
  induction i with
  | zero => intro _; left; exact ⟨_, rfl, by simp⟩
  | succ i ih =>
    intro hv
    have hv1 : ∀ v ∈ heapCPU.take i, v < N := by
      intro v hm
      apply hv
      rw [List.take_succ]
      exact List.mem_append_left _ hm
    rcases ih hv1 with ⟨st, hst, hlen⟩ | herr
    · by_cases hlt : i < heapCPU.length
      · have hvi : heapCPU[i] < N := by
          apply hv
          rw [List.take_succ, List.getElem?_eq_getElem hlt]
          exact List.mem_append_right _ (List.mem_singleton.mpr rfl)
        left
        refine ⟨(st.1.insert heapCPU[i], st.2.set heapCPU[i] (toUInt FREE_ENTRY)), ?_, by simp [hlen]⟩
        simp only [freeStackLoop, hst, freeStackStep, List.getElem?_eq_getElem hlt, hlen, hvi,
          if_true]
      · right
        have : heapCPU[i]? = none := List.getElem?_eq_none (by omega)
        simp only [freeStackLoop, hst, freeStackStep, this]
    · right
      simp only [freeStackLoop, herr]

theorem entryLoop_append (lbs : Nat) (fs : List Nat) (es rest : List HashEntry) :
    ∀ st, entryLoop lbs fs st (es ++ rest) =
      match entryLoop lbs fs st es with
      | Except.error err => Except.error err
      | Except.ok st1 => entryLoop lbs fs st1 rest := by
  induction es with
  | nil => intro st; rfl
  | cons e es ih =>
    intro st
    simp only [List.cons_append, entryLoop]
    cases h : entryStep lbs fs st e with
    | error err => rfl
    | ok st1 => exact ih st1

theorem entryStep_free (lbs : Nat) (fs : List Nat) (st : EntryScan) (e : HashEntry)
    (hp : e.ptr = -2) : entryStep lbs fs st e = Except.ok st := by
  simp [entryStep, hp]

theorem entryStep_occupied (lbs : Nat) (fs : List Nat) (st : EntryScan) (e : HashEntry)
    (hp : e.ptr ≠ -2) (hlbs : lbs ≠ 0) (hf : toUInt e.ptr / lbs ∉ fs)
    (hlt : toUInt e.ptr / lbs < st.pointersFreeVec.length) :
    ∃ st1, entryStep lbs fs st e = Except.ok st1 ∧
      st1.pointersFreeVec = st.pointersFreeVec.set (toUInt e.ptr / lbs) (toUInt LOCK_ENTRY) := by
  unfold entryStep
  by_cases hm : e.ptr = -1
  · simp only [hm] at hf hlt ⊢
    simp only [if_true]
    rw [if_pos (by decide), if_neg hlbs, if_neg hf, if_pos hlt]
    exact ⟨_, rfl, rfl⟩
  · simp only [hm, if_false]
    rw [if_pos hp, if_neg hlbs, if_neg hf, if_pos hlt]
    exact ⟨_, rfl, rfl⟩

theorem entryStep_ok (lbs N : Nat) (fs : List Nat) (st : EntryScan) (e : HashEntry)
    (hlbs : lbs ≠ 0) (hlen : st.pointersFreeVec.length = N)
    (hr : e.ptr = -2 ∨ toUInt e.ptr / lbs < N)
    (hf : e.ptr ≠ -2 → toUInt e.ptr / lbs ∉ fs) :
    ∃ st1, entryStep lbs fs st e = Except.ok st1 ∧ st1.pointersFreeVec.length = N ∧
      ∀ j, j < N → st1.pointersFreeVec[j]? =
        if e.ptr ≠ -2 ∧ toUInt e.ptr / lbs = j then some (toUInt LOCK_ENTRY)
        else st.pointersFreeVec[j]? := by
  by_cases hp : e.ptr = -2
  · refine ⟨st, entryStep_free lbs fs st e hp, hlen, ?_⟩
    intro j _; simp [hp]
  · have hlt : toUInt e.ptr / lbs < N := by
      rcases hr with h | h
      · exact absurd h hp
      · exact h
    obtain ⟨st1, h1, h2⟩ := entryStep_occupied lbs fs st e hp hlbs (hf hp) (by omega)
    refine ⟨st1, h1, by simp [h2, hlen], ?_⟩
    intro j hj
    rw [h2, List.getElem?_set]
    by_cases hji : toUInt e.ptr / lbs = j
    · simp [hji, hlen, hj, hp]
    · simp [hji]

theorem entryLoop_ok (lbs N : Nat) (fs : List Nat) (hlbs : lbs ≠ 0) :
    ∀ (es : List HashEntry) (st : EntryScan), st.pointersFreeVec.length = N →
      EntriesInRange lbs N es → NoneOnFreeHeap lbs fs es →
      ∃ st1, entryLoop lbs fs st es = Except.ok st1 ∧ st1.pointersFreeVec.length = N ∧
        ∀ j, j < N → st1.pointersFreeVec[j]? =
          if ∃ e ∈ es, e.ptr ≠ -2 ∧ toUInt e.ptr / lbs = j then some (toUInt LOCK_ENTRY)
          else st.pointersFreeVec[j]? := by
  intro es
  induction es with
  | nil =>
    intro st hlen _ _
    exact ⟨st, rfl, hlen, by intro j _; simp⟩
  | cons e es ih =>
    intro st hlen hr hf
    obtain ⟨st1, h1, hlen1, hv1⟩ :=
      entryStep_ok lbs N fs st e hlbs hlen (hr e (List.mem_cons_self _ _))
        (hf e (List.mem_cons_self _ _))
    obtain ⟨st2, h2, hlen2, hv2⟩ :=
      ih st1 hlen1 (fun x hx => hr x (List.mem_cons_of_mem _ hx))
        (fun x hx => hf x (List.mem_cons_of_mem _ hx))
    refine ⟨st2, ?_, hlen2, ?_⟩
    · simp only [entryLoop, h1, h2]
    · intro j hj
      rw [hv2 j hj, hv1 j hj]
      by_cases hes : ∃ x ∈ es, x.ptr ≠ -2 ∧ toUInt x.ptr / lbs = j
      · have : ∃ x ∈ e :: es, x.ptr ≠ -2 ∧ toUInt x.ptr / lbs = j := by
          obtain ⟨x, hx, hx2⟩ := hes
          exact ⟨x, List.mem_cons_of_mem _ hx, hx2⟩
        rw [if_pos hes, if_pos this]
      · rw [if_neg hes]
        by_cases he : e.ptr ≠ -2 ∧ toUInt e.ptr / lbs = j
        · have : ∃ x ∈ e :: es, x.ptr ≠ -2 ∧ toUInt x.ptr / lbs = j :=
            ⟨e, List.mem_cons_self _ _, he⟩
          rw [if_pos he, if_pos this]
        · have : ¬ ∃ x ∈ e :: es, x.ptr ≠ -2 ∧ toUInt x.ptr / lbs = j := by
            rintro ⟨x, hx, hx2⟩
            rcases List.mem_cons.mp hx with rfl | hx
            · exact he hx2
            · exact hes ⟨x, hx, hx2⟩
          rw [if_neg he, if_neg this]

theorem entryLoop_onFreeHeap (lbs N : Nat) (fs : List Nat) (hlbs : lbs ≠ 0) :
    ∀ (es : List HashEntry) (st : EntryScan), st.pointersFreeVec.length = N →
      EntriesInRange lbs N es → ¬ NoneOnFreeHeap lbs fs es →
      entryLoop lbs fs st es = Except.error DebugError.ptrOnFreeHeap := by
  intro es
  induction es with
  | nil =>
    intro st _ _ hf
    exact absurd (fun e he => absurd he (List.not_mem_nil e)) hf
  | cons e es ih =>
    intro st hlen hr hf
    by_cases he : e.ptr ≠ -2 → toUInt e.ptr / lbs ∉ fs
    · obtain ⟨st1, h1, hlen1, _⟩ :=
        entryStep_ok lbs N fs st e hlbs hlen (hr e (List.mem_cons_self _ _)) he
      have hrest : ¬ NoneOnFreeHeap lbs fs es := by
        intro h
        apply hf
        intro x hx
        rcases List.mem_cons.mp hx with rfl | hx
        · exact he
        · exact h x hx
      simp only [entryLoop, h1]
      exact ih st1 hlen1 (fun x hx => hr x (List.mem_cons_of_mem _ hx)) hrest
    · have hp : e.ptr ≠ -2 := fun h => he (fun h2 => absurd h h2)
      have hin : toUInt e.ptr / lbs ∈ fs := by
        by_contra h
        exact he (fun _ => h)
      have : entryStep lbs fs st e = Except.error DebugError.ptrOnFreeHeap := by
        by_cases hm : e.ptr = -1
        · simp only [hm] at hin
          simp only [entryStep, hm, if_true]
          rw [if_pos (by decide), if_neg hlbs, if_pos hin]
        · simp only [entryStep, hm, if_false]
          rw [if_pos hp, if_neg hlbs, if_pos hin]
      simp only [entryLoop, this]

theorem countLoop_ok :
    ∀ (vs : List Nat) (c : Nat × Nat),
      (∀ v ∈ vs, v = toUInt FREE_ENTRY ∨ v = toUInt LOCK_ENTRY) →
      ∃ c1, countLoop c vs = Except.ok c1 ∧
        (c1.1 + c1.2) % UINT_MOD = (c.1 + c.2 + vs.length) % UINT_MOD := by
  intro vs
  induction vs with
  | nil => intro c _; exact ⟨c, rfl, by simp⟩
  | cons v vs ih =>
    intro c hv
    have hrest : ∀ x ∈ vs, x = toUInt FREE_ENTRY ∨ x = toUInt LOCK_ENTRY :=
      fun x hx => hv x (List.mem_cons_of_mem _ hx)
    rcases hv v (List.mem_cons_self _ _) with h | h
    · obtain ⟨c1, h1, h2⟩ := ih ((c.1 + 1) % UINT_MOD, c.2) hrest
      refine ⟨c1, ?_, ?_⟩
      · simp only [countLoop, h, if_true, h1]
      · rw [h2]
        simp only [List.length_cons, UINT_MOD]
        omega
    · obtain ⟨c1, h1, h2⟩ := ih (c.1, (c.2 + 1) % UINT_MOD) hrest
      have hne : toUInt LOCK_ENTRY ≠ toUInt FREE_ENTRY := by decide
      refine ⟨c1, ?_, ?_⟩
      · simp only [countLoop, h, hne, if_false, if_true, h1]
      · rw [h2]
        simp only [List.length_cons, UINT_MOD]
        omega

theorem countLoop_leak :
    ∀ (vs : List Nat) (c : Nat × Nat),
      (∃ v ∈ vs, v ≠ toUInt FREE_ENTRY ∧ v ≠ toUInt LOCK_ENTRY) →
      countLoop c vs = Except.error DebugError.memoryLeak := by
  intro vs
  induction vs with
  | nil => intro c h; obtain ⟨v, hv, _⟩ := h; exact absurd hv (List.not_mem_nil v)
  | cons v vs ih =>
    intro c h
    by_cases h1 : v = toUInt FREE_ENTRY
    · have : ∃ x ∈ vs, x ≠ toUInt FREE_ENTRY ∧ x ≠ toUInt LOCK_ENTRY := by
        obtain ⟨x, hx, hx2⟩ := h
        rcases List.mem_cons.mp hx with rfl | hx
        · exact absurd h1 hx2.1
        · exact ⟨x, hx, hx2⟩
      simp only [countLoop, h1, if_true]
      exact ih _ this
    · by_cases h2 : v = toUInt LOCK_ENTRY
      · have : ∃ x ∈ vs, x ≠ toUInt FREE_ENTRY ∧ x ≠ toUInt LOCK_ENTRY := by
          obtain ⟨x, hx, hx2⟩ := h
          rcases List.mem_cons.mp hx with rfl | hx
          · exact absurd h2 hx2.2
          · exact ⟨x, hx, hx2⟩
        simp only [countLoop, h1, if_false]
        rw [if_pos h2]
        exact ih _ this
      · simp only [countLoop, h1, h2, if_false]

theorem marker_values (vec : List Nat) (N : Nat) (hlen : vec.length = N) (P : Nat → Prop)
    (h : ∀ j, j < N → ∃ v, vec[j]? = some v ∧ P v) : ∀ v ∈ vec, P v := by
  intro v hv
  obtain ⟨j, hj, rfl⟩ := List.getElem_of_mem hv
  obtain ⟨w, hw, hP⟩ := h j (by omega)
  rw [List.getElem?_eq_getElem hj] at hw
  cases hw
  exact hP

theorem debugHashCPU_completes_iff (N B numInFrustum : Nat) (heapCPU : List Nat)
    (heapCounter : Nat) (hashCPU : List HashEntry)
    (hN : N < UINT_MOD) (hlen : heapCPU.length = N) (hheap : ∀ v ∈ heapCPU, v < N)
    (hcnt : (heapCounter + 1) % UINT_MOD ≤ N) (hB : (B * B * B) % UINT_MOD ≠ 0)
    (hr : EntriesInRange ((B * B * B) % UINT_MOD) N hashCPU) :
    (∃ r, debugHashCPU N B numInFrustum heapCPU heapCounter hashCPU = Except.ok r) ↔
      (freeStack heapCPU heapCounter).Nodup ∧
      (∀ e ∈ hashCPU, e.ptr ≠ -2 → brickIndex B e ∉ freeStack heapCPU heapCounter) ∧
      ∀ j, j < N →
        j ∈ freeStack heapCPU heapCounter ∨ ∃ e ∈ hashCPU, e.ptr ≠ -2 ∧ brickIndex B e = j := by
  obtain ⟨st, hst, hvlen, hmem, _, hnd, hvec⟩ :=
    freeStackLoop_ok heapCPU N ((heapCounter + 1) % UINT_MOD) (by omega)
      (fun v hv => hheap v (List.mem_of_mem_take hv))
  obtain ⟨fs, vec⟩ := st
  simp only at hvlen hmem hnd hvec
  have hfs : ∀ x, x ∈ fs ↔ x ∈ freeStack heapCPU heapCounter := hmem
  unfold debugHashCPU
  simp only [hst]
  by_cases hdup : fs.length = (heapCounter + 1) % UINT_MOD
  · have hNodup : (freeStack heapCPU heapCounter).Nodup := hnd.1 hdup
    rw [if_neg (not_not.mpr hdup)]
    by_cases hfree : NoneOnFreeHeap ((B * B * B) % UINT_MOD) fs hashCPU
    · obtain ⟨st1, h1, hlen1, hv1⟩ :=
        entryLoop_ok ((B * B * B) % UINT_MOD) N fs hB hashCPU
          { numOccupied := 0, numMinusOne := 0, l := [], pointersFreeVec := vec } hvlen hr hfree
      simp only [h1]
      have hfree2 : ∀ e ∈ hashCPU, e.ptr ≠ -2 → brickIndex B e ∉ freeStack heapCPU heapCounter :=
        fun e he hp hin => hfree e he hp ((hfs _).2 hin)
      by_cases hleak : ∀ v ∈ st1.pointersFreeVec, v = toUInt FREE_ENTRY ∨ v = toUInt LOCK_ENTRY
      · obtain ⟨c1, hc1, hsum⟩ := countLoop_ok st1.pointersFreeVec (0, 0) hleak
        simp only [hc1]
        have hcheck : (c1.1 + c1.2) % UINT_MOD = N := by
          rw [hsum, hlen1]
          simp only [Nat.zero_add]
          exact Nat.mod_eq_of_lt hN
        rw [if_pos hcheck]
        constructor
        · intro _
          refine ⟨hNodup, hfree2, ?_⟩
          intro j hj
          by_cases hu : ∃ e ∈ hashCPU, e.ptr ≠ -2 ∧ brickIndex B e = j
          · exact Or.inr hu
          · left
            by_contra hnot
            have hj1 := hv1 j hj
            have hu2 : ¬ ∃ e ∈ hashCPU, e.ptr ≠ -2 ∧ toUInt e.ptr / ((B * B * B) % UINT_MOD) = j := hu
            rw [if_neg hu2] at hj1
            have hj2 := hvec j hj
            have hnot2 : j ∉ List.take ((heapCounter + 1) % UINT_MOD) heapCPU := hnot
            rw [if_neg hnot2] at hj2
            have hj3 : j < st1.pointersFreeVec.length := by omega
            have hz : st1.pointersFreeVec[j] = 0 := by
              have h3 := hj1.trans hj2
              rw [List.getElem?_eq_getElem hj3] at h3
              exact Option.some.inj h3
            have := hleak _ (List.getElem_mem hj3)
            rw [hz] at this
            rcases this with h | h
            · exact absurd h (by decide)
            · exact absurd h (by decide)
        · intro _
          exact ⟨_, rfl⟩
      · have hl : ∃ v ∈ st1.pointersFreeVec, v ≠ toUInt FREE_ENTRY ∧ v ≠ toUInt LOCK_ENTRY := by
          by_contra hcon
          apply hleak
          intro v hv
          by_contra hcon2
          exact hcon ⟨v, hv, fun h => hcon2 (Or.inl h), fun h => hcon2 (Or.inr h)⟩
        simp only [countLoop_leak st1.pointersFreeVec (0, 0) hl]
        constructor
        · rintro ⟨r, h⟩
          cases h
        · rintro ⟨_, _, hcov⟩
          exfalso
          apply hleak
          apply marker_values st1.pointersFreeVec N hlen1
          intro j hj
          by_cases hu : ∃ e ∈ hashCPU, e.ptr ≠ -2 ∧ toUInt e.ptr / ((B * B * B) % UINT_MOD) = j
          · exact ⟨_, by rw [hv1 j hj, if_pos hu], Or.inr rfl⟩
          · have hin : j ∈ List.take ((heapCounter + 1) % UINT_MOD) heapCPU := by
              rcases hcov j hj with h | h
              · exact h
              · exact absurd h hu
            exact ⟨_, by rw [hv1 j hj, if_neg hu, hvec j hj, if_pos hin], Or.inl rfl⟩
    · simp only [entryLoop_onFreeHeap ((B * B * B) % UINT_MOD) N fs hB hashCPU
        { numOccupied := 0, numMinusOne := 0, l := [], pointersFreeVec := vec } hvlen hr hfree]
      constructor
      · rintro ⟨r, h⟩
        cases h
      · rintro ⟨_, hno, _⟩
        exfalso
        apply hfree
        intro e he hp hin
        exact hno e he hp ((hfs _).1 hin)
  · rw [if_pos hdup]
    constructor
    · rintro ⟨r, h⟩
      cases h
    · rintro ⟨hnodup, _⟩
      exact absurd (hnd.2 hnodup) hdup

theorem entryLoop_not_marker (lbs N : Nat) (fs : List Nat) :
    ∀ (es : List HashEntry) (st : EntryScan), st.pointersFreeVec.length = N →
      EntriesInRange lbs N es →
      entryLoop lbs fs st es ≠ Except.error DebugError.markerOutOfRange := by
  intro es
  induction es with
  | nil => intro st _ _ h; cases h
  | cons e es ih =>
    intro st hlen hr
    have hrest : EntriesInRange lbs N es := fun x hx => hr x (List.mem_cons_of_mem _ hx)
    by_cases hp : e.ptr = -2
    · simp only [entryLoop, entryStep_free lbs fs st e hp]
      exact ih st hlen hrest
    · have hlt : toUInt e.ptr / lbs < N := by
        rcases hr e (List.mem_cons_self _ _) with h | h
        · exact absurd h hp
        · exact h
      by_cases hlbs : lbs = 0
      · have : entryStep lbs fs st e = Except.error DebugError.divisionByZero := by
          unfold entryStep
          by_cases hm : e.ptr = -1
          · simp only [hm, if_true]
            rw [if_pos (by decide), if_pos hlbs]
          · simp only [hm, if_false]
            rw [if_pos hp, if_pos hlbs]
        simp only [entryLoop, this]
        intro h
        cases h
      · by_cases hin : toUInt e.ptr / lbs ∈ fs
        · have : entryStep lbs fs st e = Except.error DebugError.ptrOnFreeHeap := by
            unfold entryStep
            by_cases hm : e.ptr = -1
            · simp only [hm] at hin ⊢
              simp only [if_true]
              rw [if_pos (by decide), if_neg hlbs, if_pos hin]
            · simp only [hm, if_false]
              rw [if_pos hp, if_neg hlbs, if_pos hin]
          simp only [entryLoop, this]
          intro h
          cases h
        · obtain ⟨st1, h1, h2⟩ := entryStep_occupied lbs fs st e hp hlbs hin (by omega)
          simp only [entryLoop, h1]
          exact ih st1 (by simp [h2, hlen]) hrest

theorem countLoop_not_marker :
    ∀ (vs : List Nat) (c : Nat × Nat),
      countLoop c vs ≠ Except.error DebugError.markerOutOfRange := by
  intro vs
  induction vs with
  | nil => intro c h; cases h
  | cons v vs ih =>
    intro c
    unfold countLoop
    split
    · exact ih _
    · split
      · exact ih _
      · intro h; cases h

theorem debugHashCPU_not_marker (N B numInFrustum : Nat) (heapCPU : List Nat)
    (heapCounter : Nat) (hashCPU : List HashEntry)
    (hheap : ∀ v ∈ freeStack heapCPU heapCounter, v < N)
    (hr : EntriesInRange ((B * B * B) % UINT_MOD) N hashCPU) :
    debugHashCPU N B numInFrustum heapCPU heapCounter hashCPU ≠
      Except.error DebugError.markerOutOfRange := by
  unfold debugHashCPU
  rcases freeStackLoop_not_marker heapCPU N ((heapCounter + 1) % UINT_MOD) hheap with
    ⟨st, hst, hlen⟩ | herr
  · obtain ⟨fs, vec⟩ := st
    simp only [hst]
    split
    · intro h; cases h
    · have hne := entryLoop_not_marker ((B * B * B) % UINT_MOD) N fs hashCPU
        { numOccupied := 0, numMinusOne := 0, l := [], pointersFreeVec := vec } hlen hr
      cases h1 : entryLoop ((B * B * B) % UINT_MOD) fs
          { numOccupied := 0, numMinusOne := 0, l := [], pointersFreeVec := vec } hashCPU with
      | error err =>
        simp only
        intro h
        apply hne
        rw [h1]
        cases h
        rfl
      | ok st1 =>
        simp only
        have hc := countLoop_not_marker st1.pointersFreeVec (0, 0)
        cases h2 : countLoop (0, 0) st1.pointersFreeVec with
        | error err =>
          simp only
          intro h
          apply hc
          rw [h2]
          cases h
          rfl
        | ok c1 =>
          simp only
          split
          · intro h; cases h
          · intro h; cases h
  · simp only [herr]
    intro h
    cases h

theorem debugHashCPU_lock_entry (N B numInFrustum : Nat) (heapCPU : List Nat)
    (heapCounter : Nat) (hashCPU : List HashEntry) (e : HashEntry) (post : List HashEntry)
    (hlen : (heapCounter + 1) % UINT_MOD ≤ heapCPU.length)
    (hheap : ∀ v ∈ freeStack heapCPU heapCounter, v < N)
    (hnodup : (freeStack heapCPU heapCounter).Nodup)
    (hB : (B * B * B) % UINT_MOD ≠ 0)
    (hr : EntriesInRange ((B * B * B) % UINT_MOD) N hashCPU)
    (hfree : ∀ x ∈ hashCPU, x.ptr ≠ -2 → brickIndex B x ∉ freeStack heapCPU heapCounter)
    (he : e.ptr = -1) (hN : N ≤ (UINT_MOD - 1) / ((B * B * B) % UINT_MOD)) :
    debugHashCPU N B numInFrustum heapCPU heapCounter (hashCPU ++ e :: post) =
      Except.error DebugError.markerOutOfRange := by
  obtain ⟨st, hst, hvlen, hmem, _, hnd, _⟩ :=
    freeStackLoop_ok heapCPU N ((heapCounter + 1) % UINT_MOD) hlen hheap
  obtain ⟨fs, vec⟩ := st
  simp only at hvlen hmem hnd
  have hfs : ∀ x, x ∈ fs ↔ x ∈ freeStack heapCPU heapCounter := hmem
  have hfree1 : NoneOnFreeHeap ((B * B * B) % UINT_MOD) fs hashCPU :=
    fun x hx hp hin => hfree x hx hp ((hfs _).1 hin)
  obtain ⟨st1, h1, hlen1, _⟩ :=
    entryLoop_ok ((B * B * B) % UINT_MOD) N fs hB hashCPU
      { numOccupied := 0, numMinusOne := 0, l := [], pointersFreeVec := vec } hvlen hr hfree1
  have hidx : toUInt (-1) = UINT_MOD - 1 := by decide
  have hnotin : (UINT_MOD - 1) / ((B * B * B) % UINT_MOD) ∉ fs := by
    intro hin
    have := hheap _ ((hfs _).1 hin)
    omega
  have hstep : entryStep ((B * B * B) % UINT_MOD) fs st1 e =
      Except.error DebugError.markerOutOfRange := by
    unfold entryStep
    simp only [he, if_true]
    rw [if_pos (by decide), if_neg hB, hidx, if_neg hnotin, if_neg (by omega)]
  unfold debugHashCPU
  simp only [hst]
  rw [if_neg (not_not.mpr (hnd.2 hnodup)), entryLoop_append]
  simp only [h1, entryLoop, hstep]

theorem debugHash_eq_CPU {F : Type} (s : CUDASceneRepHashSDF F)
    (hheap : s.m_hashData.d_heap.length = s.m_hashParams.m_numSDFBlocks)
    (hslots : s.m_hashParams.m_hashBucketSize * s.m_hashParams.m_hashNumBuckets < UINT_MOD)
    (hhash : s.m_hashData.d_hash.length =
      s.m_hashParams.m_hashBucketSize * s.m_hashParams.m_hashNumBuckets) :
    debugHash s =
      debugHashCPU s.m_hashParams.m_numSDFBlocks s.m_hashParams.m_SDFBlockSize
        s.m_hashParams.m_numOccupiedBlocks s.m_hashData.d_heap s.m_hashData.d_heapCounter
        s.m_hashData.d_hash := by
  unfold debugHash
  simp only
  rw [Nat.mod_eq_of_lt hslots, if_neg (by omega), if_neg (by omega),
    List.take_of_length_le (by omega), List.take_of_length_le (by omega)]

/-- With `2^32` hash slots or more, the copy of the hash table overruns the
host array, whatever the buffers hold. -/
theorem debugHash_overrun {F : Type} (s : CUDASceneRepHashSDF F)
    (hheap : s.m_hashParams.m_numSDFBlocks ≤ s.m_hashData.d_heap.length)
    (hhash : s.m_hashParams.m_hashBucketSize * s.m_hashParams.m_hashNumBuckets ≤
      s.m_hashData.d_hash.length)
    (hslots : UINT_MOD ≤ s.m_hashParams.m_hashBucketSize * s.m_hashParams.m_hashNumBuckets) :
    debugHash s = Except.error DebugError.hostBufferOverrun := by
  have hlt : s.m_hashParams.m_hashBucketSize * s.m_hashParams.m_hashNumBuckets % UINT_MOD <
      UINT_MOD := Nat.mod_lt _ (by decide)
  unfold debugHash
  simp only
  rw [if_neg (by omega), if_pos (by omega)]

theorem brickUsers_pos (B : Nat) (hashCPU : List HashEntry) (i : Nat) :
    1 ≤ brickUsers B hashCPU i ↔ ∃ e ∈ hashCPU, e.ptr ≠ -2 ∧ brickIndex B e = i := by
  unfold brickUsers
  rw [Nat.succ_le_iff, List.length_pos_iff_exists_mem]
  constructor
  · rintro ⟨e, he⟩
    rw [List.mem_filter] at he
    exact ⟨e, he.1, of_decide_eq_true he.2⟩
  · rintro ⟨e, he, h⟩
    exact ⟨e, List.mem_filter.mpr ⟨he, decide_eq_true h⟩⟩

/-- C5 (as amended). On a well-formed snapshot (fewer than `2^32` bricks and
fewer than `2^32` hash slots among its conditions) `debugHash` runs to its end
without throwing exactly when every heap index below `N` is either once in
the free stack and the brick of no hash entry, or not in the free stack and
the brick of at least one hash entry. -/
theorem debugHash_completes_iff {F : Type} (s : CUDASceneRepHashSDF F) (h : SnapshotOk s) :
    (∃ r, debugHash s = Except.ok r) ↔
      ∀ i, i < s.m_hashParams.m_numSDFBlocks →
        ((freeStack s.m_hashData.d_heap s.m_hashData.d_heapCounter).count i = 1 ∧
            brickUsers s.m_hashParams.m_SDFBlockSize s.m_hashData.d_hash i = 0) ∨
          ((freeStack s.m_hashData.d_heap s.m_hashData.d_heapCounter).count i = 0 ∧
            1 ≤ brickUsers s.m_hashParams.m_SDFBlockSize s.m_hashData.d_hash i) := by
  obtain ⟨hN, hlen, ⟨hslots, hhash⟩, hheap, hcnt, hB, hent⟩ := h
  have hr : EntriesInRange
      ((s.m_hashParams.m_SDFBlockSize * s.m_hashParams.m_SDFBlockSize *
        s.m_hashParams.m_SDFBlockSize) % UINT_MOD) s.m_hashParams.m_numSDFBlocks
      s.m_hashData.d_hash := by
    intro e he
    rcases hent e he with h1 | h1
    · exact Or.inl h1
    · exact Or.inr h1.2
  rw [debugHash_eq_CPU s hlen hslots hhash,
    debugHashCPU_completes_iff _ _ _ _ _ _ hN hlen hheap hcnt hB hr]
  constructor
  · rintro ⟨hnd, hfree, hcov⟩ i hi
    by_cases hin : i ∈ freeStack s.m_hashData.d_heap s.m_hashData.d_heapCounter
    · left
      refine ⟨List.count_eq_one_of_mem hnd hin, ?_⟩
      by_contra hne
      have hpos : 1 ≤ brickUsers s.m_hashParams.m_SDFBlockSize s.m_hashData.d_hash i := by
        omega
      obtain ⟨e, he, hp, hidx⟩ := (brickUsers_pos _ _ _).1 hpos
      exact hfree e he hp (hidx ▸ hin)
    · right
      refine ⟨List.count_eq_zero.mpr hin, (brickUsers_pos _ _ _).2 ?_⟩
      rcases hcov i hi with h1 | h1
      · exact absurd h1 hin
      · exact h1
  · intro hall
    refine ⟨?_, ?_, ?_⟩
    · rw [List.nodup_iff_count_le_one]
      intro a
      by_cases ha : a < s.m_hashParams.m_numSDFBlocks
      · rcases hall a ha with h1 | h1 <;> omega
      · have : a ∉ freeStack s.m_hashData.d_heap s.m_hashData.d_heapCounter := by
          intro hin
          exact ha (hheap a (List.mem_of_mem_take hin))
        rw [List.count_eq_zero.mpr this]
        omega
    · intro e he hp hin
      have hlt : brickIndex s.m_hashParams.m_SDFBlockSize e < s.m_hashParams.m_numSDFBlocks := by
        rcases hent e he with h1 | h1
        · exact absurd h1 hp
        · exact h1.2
      have hu : 1 ≤ brickUsers s.m_hashParams.m_SDFBlockSize s.m_hashData.d_hash
          (brickIndex s.m_hashParams.m_SDFBlockSize e) :=
        (brickUsers_pos _ _ _).2 ⟨e, he, hp, rfl⟩
      have hc := List.count_pos_iff.mpr hin
      rcases hall _ hlt with h1 | h1 <;> omega
    · intro j hj
      rcases hall j hj with h1 | h1
      · left
        exact List.count_pos_iff.mp (by omega)
      · right
        exact (brickUsers_pos _ _ _).1 h1.2

theorem soundScene_ok : SnapshotOk soundScene := by
  refine ⟨by decide, rfl, ⟨by decide, rfl⟩, by decide, by decide, by decide, by decide⟩

theorem debugHash_completes_iff_witness :
    SnapshotOk soundScene ∧ ∃ r, debugHash soundScene = Except.ok r :=
  ⟨soundScene_ok, (debugHash_completes_iff soundScene soundScene_ok).2 (by decide)⟩

/-- C5 as stated fails: on `sharedBrickScene`, a well-formed snapshot,
`debugHash` runs to its end although heap index `0` is the brick of two hash
entries, so not every index appears exactly once. -/
theorem debugHash_misses_shared_brick :
    SnapshotOk sharedBrickScene ∧
    debugHash sharedBrickScene =
      Except.ok
        { diff := 0, minOne := 0, numOccupied := 2, numFree := 1, numOccupiedPlusFree := 3,
          numInFrustum := 0 } ∧
    ¬ (∀ i, i < sharedBrickScene.m_hashParams.m_numSDFBlocks →
        (freeStack sharedBrickScene.m_hashData.d_heap
            sharedBrickScene.m_hashData.d_heapCounter).count i +
          brickUsers sharedBrickScene.m_hashParams.m_SDFBlockSize
            sharedBrickScene.m_hashData.d_hash i = 1) := by
  refine ⟨⟨by decide, rfl, ⟨by decide, rfl⟩, by decide, by decide, by decide, by decide⟩,
    by rfl, ?_⟩
  intro h
  exact absurd (h 0 (by decide)) (by decide)

/-! ## The orchestrator: order of the passes -/

theorem integrate_eq {F : Type} (K : DeviceCode F) (gas : GlobalAppState)
    (s : CUDASceneRepHashSDF F) (pose : mat4f F) (d : DepthCameraData F)
    (p : DepthCameraParams F) (m : List Nat) :
    integrate K gas s pose d p m =
      (garbageCollect K gas (beforeCollect K s pose d p m) d).map incrementFrames := rfl

theorem beforeCollect_kernels {F : Type} (K : DeviceCode F) (s : CUDASceneRepHashSDF F)
    (pose : mat4f F) (d : DepthCameraData F) (p : DepthCameraParams F) (m : List Nat) :
    launchedKernels (beforeCollect K s pose d p m) = launchedKernels s ++ frameKernels := by
  simp [launchedKernels, beforeCollect, integrateDepthMap, compactifyHashEntries,
    scanDecisionArray, alloc, launch,
    updateParams, setLastRigidTransform, bindDepthCameraTextures, frameKernels]

theorem beforeCollect_frames {F : Type} (K : DeviceCode F) (s : CUDASceneRepHashSDF F)
    (pose : mat4f F) (d : DepthCameraData F) (p : DepthCameraParams F) (m : List Nat) :
    (beforeCollect K s pose d p m).m_numIntegratedFrames = s.m_numIntegratedFrames := rfl

theorem launch_facts {F : Type} (s : CUDASceneRepHashSDF F) (k : Kernel)
    (f : GPU F → VoxelHashData F → HashParams F → VoxelHashData F) :
    launchedKernels (launch s k f) = launchedKernels s ++ [k] ∧
    (launch s k f).m_numIntegratedFrames = s.m_numIntegratedFrames ∧
    (launch s k f).m_hashParams = s.m_hashParams ∧ (launch s k f).gpu = s.gpu := by
  simp [launchedKernels, launch]

theorem starveDue_defined (k p : Nat) (hp : 0 < k → 0 < p) :
    starveDue k p = some (decide (0 < k ∧ k % p = 0)) := by
  unfold starveDue
  by_cases hk : 0 < k
  · have hp0 : p ≠ 0 := by have := hp hk; omega
    by_cases h : k % p = 0 <;> simp [hk, hp0, h]
  · simp [hk]

theorem garbageCollect_facts {F : Type} (K : DeviceCode F) (gas : GlobalAppState)
    (s : CUDASceneRepHashSDF F) (d : DepthCameraData F)
    (hdef : gas.s_garbageCollectionEnabled = true → 0 < s.m_numIntegratedFrames →
      0 < gas.s_garbageCollectionStarve) :
    ∃ t, garbageCollect K gas s d = some t ∧
      launchedKernels t = launchedKernels s ++ collectKernels gas s.m_numIntegratedFrames ∧
      t.m_numIntegratedFrames = s.m_numIntegratedFrames ∧
      t.m_hashParams = s.m_hashParams ∧ t.gpu = s.gpu := by
  unfold garbageCollect collectKernels
  by_cases hen : gas.s_garbageCollectionEnabled = true
  · rw [if_pos hen, if_pos hen, starveDue_defined _ _ (hdef hen)]
    by_cases hdue : 0 < s.m_numIntegratedFrames ∧
        s.m_numIntegratedFrames % gas.s_garbageCollectionStarve = 0
    · refine ⟨_, rfl, ?_⟩
      simp [hdue, launch_facts]
    · refine ⟨_, rfl, ?_⟩
      simp [hdue, launch_facts]
  · rw [if_neg hen, if_neg hen]
    exact ⟨s, rfl, by simp, rfl, rfl, rfl⟩

theorem integrate_facts {F : Type} (K : DeviceCode F) (gas : GlobalAppState)
    (s : CUDASceneRepHashSDF F) (pose : mat4f F) (d : DepthCameraData F)
    (p : DepthCameraParams F) (m : List Nat)
    (hdef : gas.s_garbageCollectionEnabled = true → 0 < s.m_numIntegratedFrames →
      0 < gas.s_garbageCollectionStarve) :
    ∃ t, integrate K gas s pose d p m = some t ∧
      launchedKernels t =
        launchedKernels s ++ frameKernels ++ collectKernels gas s.m_numIntegratedFrames ∧
      t.m_numIntegratedFrames = (s.m_numIntegratedFrames + 1) % UINT_MOD ∧
      t.m_hashParams.m_rigidTransform = K.toCUDA pose ∧
      t.m_hashParams.m_rigidTransformInverse = K.getInverse (K.toCUDA pose) ∧
      t.gpu.boundTextures = some d := by
  obtain ⟨t, ht, hk, hf, hpar, hgpu⟩ :=
    garbageCollect_facts K gas (beforeCollect K s pose d p m) d hdef
  refine ⟨incrementFrames t, ?_, ?_, ?_, ?_, ?_, ?_⟩
  · rw [integrate_eq, ht]
    rfl
  · show launchedKernels t = _
    rw [hk, beforeCollect_kernels, beforeCollect_frames]
  · show (t.m_numIntegratedFrames + 1) % UINT_MOD = _
    rw [hf, beforeCollect_frames]
  · show t.m_hashParams.m_rigidTransform = _
    rw [hpar]
    rfl
  · show t.m_hashParams.m_rigidTransformInverse = _
    rw [hpar]
    rfl
  · show t.gpu.boundTextures = _
    rw [hgpu]
    rfl

theorem integrate_none {F : Type} (K : DeviceCode F) (gas : GlobalAppState)
    (s : CUDASceneRepHashSDF F) (pose : mat4f F) (d : DepthCameraData F)
    (p : DepthCameraParams F) (m : List Nat)
    (hen : gas.s_garbageCollectionEnabled = true) (hk : 0 < s.m_numIntegratedFrames)
    (hz : gas.s_garbageCollectionStarve = 0) :
    integrate K gas s pose d p m = none := by
  rw [integrate_eq]
  have hk2 : 0 < (beforeCollect K s pose d p m).m_numIntegratedFrames := by
    rw [beforeCollect_frames]
    exact hk
  simp [garbageCollect, hen, starveDue, hk2, hz]

/-- C1. For every state and input, `integrate` returns exactly when the starve
test of `garbageCollect` has a value (garbage collection is off, or no frame
was integrated yet, or the starve period is positive; otherwise the source
takes a modulo by zero). Whenever it returns, the kernels it has launched
are, in this order: bucket-mutex reset, allocation, decision fill, prefix sum,
scatter, depth integration, then those of garbage collection; the frame
counter is the old one plus one modulo `2^32` and the stored pose is the given
pose (converted by `toCUDA`), which `getLastRigidTransform` converts back. -/
theorem integrate_pass_order {F : Type} (K : DeviceCode F) (gas : GlobalAppState)
    (s : CUDASceneRepHashSDF F) (pose : mat4f F) (d : DepthCameraData F)
    (p : DepthCameraParams F) (m : List Nat) :
    ((∃ t, integrate K gas s pose d p m = some t) ↔
      (gas.s_garbageCollectionEnabled = true → 0 < s.m_numIntegratedFrames →
        0 < gas.s_garbageCollectionStarve)) ∧
    ∀ t, integrate K gas s pose d p m = some t →
      launchedKernels t =
        launchedKernels s ++
          [Kernel.resetHashBucketMutexCUDA, Kernel.allocCUDA, Kernel.fillDecisionArrayCUDA,
            Kernel.prefixSum, Kernel.compactifyHashCUDA, Kernel.integrateDepthMapCUDA] ++
          collectKernels gas s.m_numIntegratedFrames ∧
      t.m_numIntegratedFrames = (s.m_numIntegratedFrames + 1) % UINT_MOD ∧
      t.m_hashParams.m_rigidTransform = K.toCUDA pose ∧
      getLastRigidTransform K t = K.toMlib (K.toCUDA pose) := by
  have hiff : (∃ t, integrate K gas s pose d p m = some t) ↔
      (gas.s_garbageCollectionEnabled = true → 0 < s.m_numIntegratedFrames →
        0 < gas.s_garbageCollectionStarve) := by
    constructor
    · rintro ⟨t, ht⟩ hen hk
      by_contra hz
      rw [integrate_none K gas s pose d p m hen hk (by omega)] at ht
      cases ht
    · intro hdef
      obtain ⟨t, ht, _⟩ := integrate_facts K gas s pose d p m hdef
      exact ⟨t, ht⟩
  refine ⟨hiff, ?_⟩
  intro t ht
  obtain ⟨u, hu, h2, h3, h4, _, _⟩ := integrate_facts K gas s pose d p m (hiff.1 ⟨t, ht⟩)
  have htu : t = u := Option.some.inj (ht.symm.trans hu)
  subst htu
  refine ⟨h2, h3, h4, ?_⟩
  unfold getLastRigidTransform
  rw [h4]

theorem integrate_pass_order_witness :
    ∃ t, integrate OneBrick.device OneBrick.collect OneBrick.fresh (OneBrick.poseAt 0)
        (OneBrick.frame 2) (OneBrick.camera 1 1) [] = some t ∧
      launchedKernels t =
        [Kernel.resetCUDA, Kernel.resetHashBucketMutexCUDA, Kernel.allocCUDA,
          Kernel.fillDecisionArrayCUDA, Kernel.prefixSum, Kernel.compactifyHashCUDA,
          Kernel.integrateDepthMapCUDA, Kernel.garbageCollectIdentifyCUDA,
          Kernel.resetHashBucketMutexCUDA, Kernel.garbageCollectFreeCUDA] ∧
      t.m_numIntegratedFrames = 1 := by
  have h := integrate_pass_order OneBrick.device OneBrick.collect OneBrick.fresh
    (OneBrick.poseAt 0) (OneBrick.frame 2) (OneBrick.camera 1 1) []
  obtain ⟨t, ht⟩ := h.1.2 (fun _ _ => by decide)
  obtain ⟨h2, h3, _⟩ := h.2 t ht
  exact ⟨t, ht, h2, h3⟩

/-- C8. With a positive starve period: when garbage collection is disabled
`garbageCollect` launches nothing; when it is enabled it launches identify,
the bucket-mutex reset and free, in this order, preceded by the starve kernel
exactly when the frame counter `k` is positive and a multiple of the period.
At `k = 0` the call returns whatever the period, zero included (the modulo is
not evaluated), and launches no starve kernel. -/
theorem garbageCollect_launches {F : Type} (K : DeviceCode F) (gas : GlobalAppState)
    (s : CUDASceneRepHashSDF F) (d : DepthCameraData F)
    (hp : 0 < gas.s_garbageCollectionStarve) :
    (gas.s_garbageCollectionEnabled = false → garbageCollect K gas s d = some s) ∧
    (gas.s_garbageCollectionEnabled = true →
      ∃ t, garbageCollect K gas s d = some t ∧
        launchedKernels t =
          launchedKernels s ++
            (if 0 < s.m_numIntegratedFrames ∧
                s.m_numIntegratedFrames % gas.s_garbageCollectionStarve = 0
              then [Kernel.starveVoxelsKernelCUDA] else []) ++
            [Kernel.garbageCollectIdentifyCUDA, Kernel.resetHashBucketMutexCUDA,
              Kernel.garbageCollectFreeCUDA]) ∧
    (s.m_numIntegratedFrames = 0 →
      ∀ gas0 : GlobalAppState, ∃ t, garbageCollect K gas0 s d = some t ∧
        Kernel.starveVoxelsKernelCUDA ∉ (launchedKernels t).drop (launchedKernels s).length) := by
  refine ⟨?_, ?_, ?_⟩
  · intro hen
    simp [garbageCollect, hen]
  · intro hen
    obtain ⟨t, h1, h2, _⟩ := garbageCollect_facts K gas s d (fun _ _ => hp)
    refine ⟨t, h1, ?_⟩
    rw [h2, collectKernels, if_pos hen, List.append_assoc]
  · intro hk gas0
    unfold garbageCollect
    by_cases hen : gas0.s_garbageCollectionEnabled = true
    · rw [if_pos hen]
      simp [starveDue, hk, launchedKernels, launch]
    · rw [if_neg hen]
      exact ⟨s, rfl, by simp⟩

theorem garbageCollect_launches_witness :
    ∃ t, garbageCollect OneBrick.idle OneBrick.collect
        (tinyScene (tinyParams 1 1 1 1) (tinyData [0] 0 []) 30) (OneBrick.frame 0) = some t ∧
      launchedKernels t =
        [Kernel.starveVoxelsKernelCUDA, Kernel.garbageCollectIdentifyCUDA,
          Kernel.resetHashBucketMutexCUDA, Kernel.garbageCollectFreeCUDA] :=
  (garbageCollect_launches OneBrick.idle OneBrick.collect
    (tinyScene (tinyParams 1 1 1 1) (tinyData [0] 0 []) 30) (OneBrick.frame 0)
    (by decide)).2.1 rfl

/-- C3 (as amended). `integrate` does not look at the frame dimensions: a call
whose depth frame disagrees with the configured intrinsics is carried out
like any other (whenever the starve test of `garbageCollect` has a value).
The textures are bound, the pose is stored, all passes are launched in order
and the frame counter advances. -/
theorem integrate_not_rejected {F : Type} (K : DeviceCode F) (gas : GlobalAppState)
    (s : CUDASceneRepHashSDF F) (pose : mat4f F) (d : DepthCameraData F)
    (p : DepthCameraParams F) (m : List Nat)
    (hdef : gas.s_garbageCollectionEnabled = true → 0 < s.m_numIntegratedFrames →
      0 < gas.s_garbageCollectionStarve)
    (_hdis : dimsDisagree d p) :
    ∃ t, integrate K gas s pose d p m = some t ∧
      launchedKernels t =
        launchedKernels s ++
          [Kernel.resetHashBucketMutexCUDA, Kernel.allocCUDA, Kernel.fillDecisionArrayCUDA,
            Kernel.prefixSum, Kernel.compactifyHashCUDA, Kernel.integrateDepthMapCUDA] ++
          collectKernels gas s.m_numIntegratedFrames ∧
      t.m_numIntegratedFrames = (s.m_numIntegratedFrames + 1) % UINT_MOD ∧
      t.m_hashParams.m_rigidTransform = K.toCUDA pose ∧
      t.m_hashParams.m_rigidTransformInverse = K.getInverse (K.toCUDA pose) ∧
      t.gpu.boundTextures = some d :=
  integrate_facts K gas s pose d p m hdef

theorem integrate_not_rejected_witness :
    ∃ t, integrate OneBrick.idle OneBrick.collect
        (tinyScene (tinyParams 1 1 1 1) (tinyData [0] 0 []) 0) (OneBrick.poseAt 3)
        (OneBrick.frame 2) (OneBrick.camera 640 480) [] = some t ∧
      launchedKernels t =
        [Kernel.resetHashBucketMutexCUDA, Kernel.allocCUDA, Kernel.fillDecisionArrayCUDA,
          Kernel.prefixSum, Kernel.compactifyHashCUDA, Kernel.integrateDepthMapCUDA,
          Kernel.garbageCollectIdentifyCUDA, Kernel.resetHashBucketMutexCUDA,
          Kernel.garbageCollectFreeCUDA] := by
  obtain ⟨t, h1, h2, _⟩ :=
    integrate_not_rejected OneBrick.idle OneBrick.collect
      (tinyScene (tinyParams 1 1 1 1) (tinyData [0] 0 []) 0) (OneBrick.poseAt 3)
      (OneBrick.frame 2) (OneBrick.camera 640 480) [] (fun _ _ => by decide)
      (Or.inl (by decide))
  exact ⟨t, h1, h2⟩

/-- C3 as stated fails: a 1x1 depth frame is integrated against 640x480
intrinsics. The call is not rejected: six kernels are launched, the pose and
the frame counter change and a brick is allocated. -/
theorem integrate_accepts_mismatched_frame :
    dimsDisagree (OneBrick.frame 2) (OneBrick.camera 640 480) ∧
    ∃ t, integrate OneBrick.device OneBrick.noCollect OneBrick.fresh (OneBrick.poseAt 3)
        (OneBrick.frame 2) (OneBrick.camera 640 480) [] = some t ∧
      launchedKernels t = launchedKernels OneBrick.fresh ++ frameKernels ∧
      OneBrick.fresh.m_numIntegratedFrames = 0 ∧ t.m_numIntegratedFrames = 1 ∧
      OneBrick.fresh.m_hashParams.m_rigidTransform = mat4f.identity ∧
      t.m_hashParams.m_rigidTransform = OneBrick.poseAt 3 ∧
      OneBrick.fresh.m_hashData.d_heapCounter = 0 ∧
      t.m_hashData.d_heapCounter = 4294967295 ∧
      t.m_hashData.d_hash ≠ OneBrick.fresh.m_hashData.d_hash := by
  refine ⟨Or.inl (by decide), _, rfl, by decide, rfl, rfl, rfl, rfl, rfl, rfl, by decide⟩

/-! ## The multi-sensor entry point -/

/-- X1. `integrate_multisensor` is `integrate` on the heads of its lists without
the texture binding (and without the profiling calls, which are not
embedded): started from a state in which the head frame is already bound it
returns what `integrate` returns. -/
theorem integrate_multisensor_eq {F : Type} (K : DeviceCode F) (gas : GlobalAppState)
    (s : CUDASceneRepHashSDF F) (t : mat4f F) (ts : List (mat4f F)) (d : DepthCameraData F)
    (ds : List (DepthCameraData F)) (p : DepthCameraParams F) (ps : List (DepthCameraParams F))
    (m : List Nat) (ms : List (List Nat)) :
    integrate_multisensor K gas (bindDepthCameraTextures s d) (t :: ts) (d :: ds) (p :: ps)
      (m :: ms) = integrate K gas s t d p m := by
  simp only [integrate_multisensor, List.getElem?_cons_zero]
  rfl

/-- X2. The result of `integrate_multisensor` does not depend on the elements
after the first of each list. -/
theorem integrate_multisensor_heads {F : Type} (K : DeviceCode F) (gas : GlobalAppState)
    (s : CUDASceneRepHashSDF F) (t : mat4f F) (ts : List (mat4f F)) (d : DepthCameraData F)
    (ds : List (DepthCameraData F)) (p : DepthCameraParams F) (ps : List (DepthCameraParams F))
    (m : List Nat) (ms : List (List Nat)) :
    integrate_multisensor K gas s (t :: ts) (d :: ds) (p :: ps) (m :: ms) =
      integrate_multisensor K gas s [t] [d] [p] [m] := by
  simp only [integrate_multisensor, List.getElem?_cons_zero]

/-- C9 at the failing input: after a frame without valid pixels, a frame with
a surface at depth `2` is handed to `integrate` and, as the only sensor, to
`integrate_multisensor`. `integrate` binds the new frame and a brick is
allocated; `integrate_multisensor` leaves the old frame bound, every kernel
it launches sees the old textures, and nothing is allocated. -/
theorem integrate_multisensor_keeps_stale_textures :
    ∃ s t u, OneBrick.staleStart = some s ∧
      integrate OneBrick.textureDevice OneBrick.noCollect s (OneBrick.poseAt 0)
        (OneBrick.frame 2) (OneBrick.camera 1 1) [] = some t ∧
      integrate_multisensor OneBrick.textureDevice OneBrick.noCollect s [OneBrick.poseAt 0]
        [OneBrick.frame 2] [OneBrick.camera 1 1] [[]] = some u ∧
      t.gpu.boundTextures = some (OneBrick.frame 2) ∧
      u.gpu.boundTextures = some (OneBrick.frame 0) ∧
      (∀ l ∈ u.launches.drop s.launches.length, l.gpu.boundTextures = some (OneBrick.frame 0)) ∧
      t.m_hashData.d_heapCounter = 0 ∧ u.m_hashData.d_heapCounter = 1 ∧
      t.m_hashParams.m_numOccupiedBlocks = 1 ∧ u.m_hashParams.m_numOccupiedBlocks = 0 := by
  refine ⟨_, _, _, rfl, rfl, rfl, rfl, rfl, by decide, rfl, rfl, rfl, rfl⟩

/-! ## reset and the constructor -/

theorem reset_isResetState {F : Type} [Zero F] [One F] (K : DeviceCode F)
    (s : CUDASceneRepHashSDF F) (hK : K.resetCUDA = SpecModel.resetCUDA) :
    IsResetState s.m_hashParams (reset K s) := by
  have hdata : (reset K s).m_hashData =
      SpecModel.resetCUDA (reset K s).gpu s.m_hashData (reset K s).m_hashParams := by
    show K.resetCUDA _ _ _ = _
    rw [hK]
    rfl
  have hN : (reset K s).m_hashParams.m_numSDFBlocks = s.m_hashParams.m_numSDFBlocks := rfl
  refine ⟨rfl, rfl, rfl, rfl, ?_, ?_, ?_, ?_, ?_, rfl⟩
  · rw [hdata]
    simp [SpecModel.resetCUDA, hN]
  · intro i hi
    rw [hdata]
    simp [SpecModel.resetCUDA, hN, List.getElem?_map, List.getElem?_range hi]
  · rw [hdata]
    simp [SpecModel.resetCUDA, hN]
  · intro h0 hle
    rw [hdata]
    simp only [SpecModel.resetCUDA, hN, UINT_MOD] at hle ⊢
    omega
  · intro e he
    rw [hdata] at he
    simp only [SpecModel.resetCUDA] at he
    obtain ⟨x, _, rfl⟩ := List.mem_map.mp he
    rfl

/-- C2. With `resetCUDA` as the specification describes it, `reset` leaves the
frame counter `0`, pose and inverse pose the identity, `numOccupiedBlocks`
`0`, the heap free stack reinitialised, every hash entry `FREE_ENTRY` and the
other parameters unchanged; a freshly constructed orchestrator is in the same
state, whatever the parameters, buffers and counter it was built from. -/
theorem reset_establishes {F : Type} [Zero F] [One F] (K : DeviceCode F)
    (s : CUDASceneRepHashSDF F) (hK : K.resetCUDA = SpecModel.resetCUDA) :
    IsResetState s.m_hashParams (reset K s) ∧
    ∀ (params : HashParams F) (allocated : VoxelHashData F) (frames : Nat) (gpu : GPU F),
      IsResetState params (create K params allocated frames gpu) :=
  ⟨reset_isResetState K s hK, fun params allocated frames gpu =>
    reset_isResetState K
      { m_hashParams := params, m_hashData := allocated, m_numIntegratedFrames := frames,
        gpu := gpu, launches := [] } hK⟩

theorem reset_establishes_witness :
    OneBrick.fresh.m_numIntegratedFrames = 0 ∧
    OneBrick.fresh.m_hashData.d_heap = [0] ∧
    OneBrick.fresh.m_hashData.d_heapCounter = 0 ∧
    ∀ e ∈ OneBrick.fresh.m_hashData.d_hash, e.ptr = FREE_ENTRY := by
  have h := (reset_establishes OneBrick.device
    (tinyScene (tinyParams 1 1 1 1) (tinyData [] 0 []) 5) rfl).2 (tinyParams 1 1 1 1)
    (tinyData [7] 9 [{ pos := { x := 3, y := 3, z := 3 }, offset := 0, ptr := 5 }]) 12
    { boundTextures := none, c_hashParams := none }
  exact ⟨h.1, rfl, h.2.2.2.2.2.2.1, h.2.2.2.2.2.2.2.2.1⟩

/-- X3. After `setLastRigidTransform` the stored inverse is `getInverse` of the
stored transform, the stored transform is the converted argument, and
`getLastRigidTransform` converts it back; nothing else changes. -/
theorem setLastRigidTransform_stores {F : Type} (K : DeviceCode F) (s : CUDASceneRepHashSDF F)
    (T : mat4f F) :
    (setLastRigidTransform K s T).m_hashParams.m_rigidTransform = K.toCUDA T ∧
    (setLastRigidTransform K s T).m_hashParams.m_rigidTransformInverse =
      K.getInverse (setLastRigidTransform K s T).m_hashParams.m_rigidTransform ∧
    getLastRigidTransform K (setLastRigidTransform K s T) = K.toMlib (K.toCUDA T) ∧
    (setLastRigidTransform K s T).m_hashData = s.m_hashData ∧
    (setLastRigidTransform K s T).m_numIntegratedFrames = s.m_numIntegratedFrames ∧
    (setLastRigidTransform K s T).launches = s.launches :=
  ⟨rfl, rfl, rfl, rfl, rfl, rfl⟩

/-- X4. With `resetCUDA` as the specification describes it, a second `reset`
right after a first leaves parameters, buffers, frame counter and uploaded
parameters as the first left them. -/
theorem reset_idempotent {F : Type} [Zero F] [One F] (K : DeviceCode F)
    (s : CUDASceneRepHashSDF F) (hK : K.resetCUDA = SpecModel.resetCUDA) :
    (reset K (reset K s)).m_hashParams = (reset K s).m_hashParams ∧
    (reset K (reset K s)).m_hashData = (reset K s).m_hashData ∧
    (reset K (reset K s)).m_numIntegratedFrames = (reset K s).m_numIntegratedFrames ∧
    (reset K (reset K s)).gpu = (reset K s).gpu := by
  refine ⟨rfl, ?_, rfl, rfl⟩
  simp only [reset, launch, updateParams, hK, SpecModel.resetCUDA, List.map_map]
  congr 1

theorem reset_idempotent_witness :
    (reset OneBrick.device (reset OneBrick.device OneBrick.fresh)).m_hashData =
      OneBrick.fresh.m_hashData :=
  (reset_idempotent OneBrick.device OneBrick.fresh rfl).2.1.trans rfl

/-! ## Compaction -/

theorem exclusiveScan_length (xs : List Nat) :
    ∀ acc, (SpecModel.exclusiveScan acc xs).length = xs.length := by
  induction xs with
  | nil => intro acc; rfl
  | cons x xs ih => intro acc; simp [SpecModel.exclusiveScan, ih]

theorem count_one_cons_flag (y : Nat) (ys : List Nat) (hy : y = 0 ∨ y = 1) :
    (y :: ys).count 1 = y + ys.count 1 := by
  rcases hy with rfl | rfl
  · simp
  · simp [List.count_cons]
    omega

theorem scan_total_aux (xs : List Nat) :
    ∀ x0 acc0, x0 ≤ 1 → (∀ x ∈ xs, x = 0 ∨ x = 1) → acc0 + x0 + xs.length < UINT_MOD →
      xs.getLastD x0 + (SpecModel.exclusiveScan ((acc0 + x0) % UINT_MOD) xs).getLastD acc0 =
        acc0 + x0 + xs.count 1 := by
  induction xs with
  | nil =>
    intro x0 acc0 _ _ _
    simp [SpecModel.exclusiveScan]
    omega
  | cons y ys ih =>
    intro x0 acc0 hx0 hflags hlt
    have hy : y = 0 ∨ y = 1 := hflags y (List.mem_cons_self _ _)
    have hy1 : y ≤ 1 := by omega
    have hmod : (acc0 + x0) % UINT_MOD = acc0 + x0 := by
      apply Nat.mod_eq_of_lt
      simp only [List.length_cons] at hlt
      omega
    have hlt2 : acc0 + x0 + y + ys.length < UINT_MOD := by
      simp only [List.length_cons] at hlt
      omega
    have := ih y (acc0 + x0) hy1 (fun x hx => hflags x (List.mem_cons_of_mem _ hx)) hlt2
    rw [hmod]
    simp only [SpecModel.exclusiveScan, List.getLastD_cons]
    rw [this, count_one_cons_flag y ys hy]
    omega

theorem scan_sum (xs : List Nat) (hflags : ∀ x ∈ xs, x = 0 ∨ x = 1)
    (hlt : xs.length < UINT_MOD) :
    xs.getLastD 0 + (SpecModel.exclusiveScan 0 xs).getLastD 0 = xs.count 1 := by
  cases xs with
  | nil => rfl
  | cons x xs =>
    have hx : x = 0 ∨ x = 1 := hflags x (List.mem_cons_self _ _)
    have hx1 : x ≤ 1 := by omega
    have h := scan_total_aux xs x 0 hx1 (fun y hy => hflags y (List.mem_cons_of_mem _ hy))
      (by simp only [List.length_cons] at hlt; omega)
    simp only [Nat.zero_add] at h
    simp only [SpecModel.exclusiveScan, List.getLastD_cons, Nat.zero_add]
    rw [h, ← count_one_cons_flag x xs hx]

theorem scan_total (xs : List Nat) (hflags : ∀ x ∈ xs, x = 0 ∨ x = 1)
    (hlt : xs.length < UINT_MOD) :
    (xs.getLastD 0 + (SpecModel.exclusiveScan 0 xs).getLastD 0) % UINT_MOD = xs.count 1 := by
  rw [scan_sum xs hflags hlt]
  have hcount : xs.count 1 ≤ xs.length := List.count_le_length 1 xs
  exact Nat.mod_eq_of_lt (by omega)

theorem prefixSum_total (n : Nat) (input output : List Nat)
    (hflags : ∀ x ∈ input, x = 0 ∨ x = 1) (hn : n < UINT_MOD) :
    (SpecModel.prefixSum n input output).1 = (input.take n).count 1 := by
  unfold SpecModel.prefixSum
  simp only
  apply scan_total
  · intro x hx
    exact hflags x (List.mem_of_mem_take hx)
  · have := List.length_take_le n input
    omega

theorem slotCount_lt {F : Type} (p : HashParams F) : slotCount p < UINT_MOD :=
  Nat.mod_lt _ (by decide)

theorem getLastD_eq_getElem? (xs : List Nat) (n : Nat) (hlen : xs.length = n) :
    xs.getLastD 0 = xs[n - 1]?.getD 0 := by
  rw [List.getLastD_eq_getLast?, List.getLast?_eq_getElem?, hlen]

theorem launch_last {F : Type} (s : CUDASceneRepHashSDF F) (k : Kernel)
    (f : GPU F → VoxelHashData F → HashParams F → VoxelHashData F) :
    ∃ l, (launch s k f).launches.getLast? = some l ∧ l.kernel = k ∧
      l.params = s.m_hashParams ∧ l.gpu = s.gpu :=
  ⟨{ kernel := k, params := s.m_hashParams, gpu := s.gpu }, by simp [launch], rfl, rfl, rfl⟩

theorem count_decisionFlag {F : Type} (O : SpecModel.DeviceOps F) (p : HashParams F)
    (l : List HashEntry) :
    (l.map (SpecModel.decisionFlag O p)).count 1 =
      (l.filter (fun e => decide (0 ≤ e.ptr ∧ O.inFrustum p e.pos = true))).length := by
  induction l with
  | nil => rfl
  | cons e l ih =>
    by_cases h : 0 ≤ e.ptr ∧ O.inFrustum p e.pos = true
    · simp [List.filter_cons, SpecModel.decisionFlag, h, ih]
    · simp [List.filter_cons, SpecModel.decisionFlag, h, ih]

theorem decisionFlag_flag {F : Type} (O : SpecModel.DeviceOps F) (p : HashParams F)
    (l : List HashEntry) : ∀ x ∈ l.map (SpecModel.decisionFlag O p), x = 0 ∨ x = 1 := by
  intro x hx
  obtain ⟨e, _, rfl⟩ := List.mem_map.mp hx
  unfold SpecModel.decisionFlag
  split
  · exact Or.inr rfl
  · exact Or.inl rfl

/-- C4. With the scan utility as the specification describes it, and a decision
array of `n = numBuckets * bucketSize > 0` flags `0`/`1` left by the fill
kernel, `compactifyHashEntries` sets `m_numOccupiedBlocks` to
`decision[n-1] + prefix[n-1]`, which is the number of flags that are `1`; the
scatter kernel and the integration kernel launched next are passed this value
and find it in the uploaded parameters. When the fill kernel is the one of the
specification, that number is the number of slots with `ptr ≥ 0` in the
frustum. -/
theorem compactify_counts_flags {F : Type} (K : DeviceCode F) (s : CUDASceneRepHashSDF F)
    (d : DepthCameraData F) (dcp : DepthCameraParams F)
    (hK : K.prefixSum = SpecModel.prefixSum)
    (hlen : (decisionAfterFill K s d).length = slotCount s.m_hashParams)
    (hn : 0 < slotCount s.m_hashParams)
    (hflags : ∀ x ∈ decisionAfterFill K s d, x = 0 ∨ x = 1) :
    (compactifyHashEntries K s d).m_hashParams.m_numOccupiedBlocks =
        (decisionAfterFill K s d)[slotCount s.m_hashParams - 1]?.getD 0 +
          (scanAfterFill K s d)[slotCount s.m_hashParams - 1]?.getD 0 ∧
    (compactifyHashEntries K s d).m_hashParams.m_numOccupiedBlocks =
        (decisionAfterFill K s d).count 1 ∧
    (∃ l, (compactifyHashEntries K s d).launches.getLast? = some l ∧
        l.kernel = Kernel.compactifyHashCUDA ∧
        l.params.m_numOccupiedBlocks = (decisionAfterFill K s d).count 1 ∧
        l.gpu.c_hashParams = some l.params) ∧
    (∃ l, (integrateDepthMap K (compactifyHashEntries K s d) d dcp).launches.getLast? = some l ∧
        l.kernel = Kernel.integrateDepthMapCUDA ∧
        l.params.m_numOccupiedBlocks = (decisionAfterFill K s d).count 1 ∧
        l.gpu.c_hashParams = some l.params) ∧
    (∀ O : SpecModel.DeviceOps F, K.fillDecisionArrayCUDA = SpecModel.fillDecisionArrayCUDA O →
      (decisionAfterFill K s d).count 1 =
        SpecModel.occupiedInFrustum O s.m_hashParams (slotCount s.m_hashParams)
          s.m_hashData.d_hash) := by
  have hocc : (compactifyHashEntries K s d).m_hashParams.m_numOccupiedBlocks =
      (SpecModel.prefixSum (slotCount s.m_hashParams) (decisionAfterFill K s d)
        (K.fillDecisionArrayCUDA s.gpu s.m_hashData s.m_hashParams d).d_hashDecisionPrefix).1 := by
    show (K.prefixSum _ _ _).1 = _
    rw [hK]
    rfl
  have hcount : (compactifyHashEntries K s d).m_hashParams.m_numOccupiedBlocks =
      (decisionAfterFill K s d).count 1 := by
    rw [hocc, prefixSum_total _ _ _ hflags (slotCount_lt _),
      List.take_of_length_le (by omega)]
  have htake : (decisionAfterFill K s d).take (slotCount s.m_hashParams) =
      decisionAfterFill K s d := List.take_of_length_le (by omega)
  have hscan : ((SpecModel.exclusiveScan 0 (decisionAfterFill K s d)).length) =
      slotCount s.m_hashParams := by rw [exclusiveScan_length, hlen]
  refine ⟨?_, hcount, ?_, ?_, ?_⟩
  · rw [hocc]
    unfold scanAfterFill
    rw [hK]
    unfold SpecModel.prefixSum
    simp only [htake]
    rw [List.getElem?_append_left (by omega),
      ← getLastD_eq_getElem? _ _ hlen, ← getLastD_eq_getElem? _ _ hscan]
    have h3 := slotCount_lt s.m_hashParams
    have h1 := scan_sum (decisionAfterFill K s d) hflags (by omega)
    have h2 := List.count_le_length 1 (decisionAfterFill K s d)
    rw [h1]
    exact Nat.mod_eq_of_lt (by omega)
  · obtain ⟨l, h1, h2, h3, h4⟩ := launch_last
      (updateParams (scanDecisionArray K (launch s Kernel.fillDecisionArrayCUDA
        (fun g x p => K.fillDecisionArrayCUDA g x p d))))
      Kernel.compactifyHashCUDA K.compactifyHashCUDA
    refine ⟨l, h1, h2, ?_, ?_⟩
    · rw [h3]
      exact hcount
    · rw [h3, h4]
      rfl
  · obtain ⟨l, h1, h2, h3, h4⟩ := launch_last (compactifyHashEntries K s d)
      Kernel.integrateDepthMapCUDA (fun g x p => K.integrateDepthMapCUDA g x p d dcp)
    refine ⟨l, h1, h2, ?_, ?_⟩
    · rw [h3]
      exact hcount
    · rw [h3, h4]
      rfl
  · intro O hO
    have hdec : decisionAfterFill K s d =
        s.m_hashData.d_hash.map (SpecModel.decisionFlag O s.m_hashParams) := by
      unfold decisionAfterFill
      rw [hO]
      rfl
    have hl : s.m_hashData.d_hash.length = slotCount s.m_hashParams := by
      rw [← hlen, hdec, List.length_map]
    unfold SpecModel.occupiedInFrustum
    rw [hdec, count_decisionFlag, List.take_of_length_le (by omega)]

theorem compactify_counts_flags_witness :
    (compactifyHashEntries OneBrick.device
      (tinyScene (tinyParams 2 1 1 2)
        (tinyData [1, 0] 0
          [{ pos := { x := 0, y := 0, z := 2 }, offset := 0, ptr := 0 },
           { pos := { x := 0, y := 0, z := 0 }, offset := 0, ptr := -2 }]) 1)
      (OneBrick.frame 0)).m_hashParams.m_numOccupiedBlocks = 1 :=
  (compactify_counts_flags OneBrick.device
    (tinyScene (tinyParams 2 1 1 2)
      (tinyData [1, 0] 0
        [{ pos := { x := 0, y := 0, z := 2 }, offset := 0, ptr := 0 },
         { pos := { x := 0, y := 0, z := 0 }, offset := 0, ptr := -2 }]) 1)
    (OneBrick.frame 0) (OneBrick.camera 1 1) rfl rfl (by decide) (by decide)).2.1

/-! ## A frame without valid pixels -/

theorem allocPixels_invalid {F : Type} [Zero F] [DecidableEq F] (O : SpecModel.DeviceOps F)
    (p : HashParams F) (dcp : DepthCameraParams F) (mask : List Nat) :
    ∀ (l : List (Nat × F)) (d : VoxelHashData F), (∀ px ∈ l, px.2 = 0) →
      l.foldl (SpecModel.allocPixel O p dcp mask) d = d := by
  intro l
  induction l with
  | nil => intro d _; rfl
  | cons px l ih =>
    intro d h
    have h0 : px.2 = 0 := h px (List.mem_cons_self _ _)
    have hstep : SpecModel.allocPixel O p dcp mask d px = d := by
      unfold SpecModel.allocPixel
      rw [if_pos (Or.inl h0)]
    rw [List.foldl_cons, hstep]
    exact ih d (fun q hq => h q (List.mem_cons_of_mem _ hq))

theorem allocCUDA_invalid {F : Type} [Zero F] [DecidableEq F] (O : SpecModel.DeviceOps F)
    (g : GPU F) (d : VoxelHashData F) (p : HashParams F) (dcd : DepthCameraData F)
    (dcp : DepthCameraParams F) (mask : List Nat) (hinv : allInvalid dcd) :
    SpecModel.allocCUDA O g d p dcd dcp mask = d := by
  unfold SpecModel.allocCUDA
  apply allocPixels_invalid
  intro px hpx
  exact hinv _ (List.snd_mem_of_mem_enum hpx)

theorem beforeCollect_invalid {F : Type} [Zero F] [DecidableEq F] (K : DeviceCode F)
    (O : SpecModel.DeviceOps F) (s : CUDASceneRepHashSDF F) (pose : mat4f F)
    (d : DepthCameraData F) (p : DepthCameraParams F) (m : List Nat) (hinv : allInvalid d) :
    (beforeCollect (SpecModel.kernels K O) s pose d p m).m_hashData.d_heapCounter =
        s.m_hashData.d_heapCounter ∧
    (beforeCollect (SpecModel.kernels K O) s pose d p m).m_hashData.d_overflowCounter =
        s.m_hashData.d_overflowCounter ∧
    (beforeCollect (SpecModel.kernels K O) s pose d p m).m_hashData.d_heap =
        s.m_hashData.d_heap ∧
    (beforeCollect (SpecModel.kernels K O) s pose d p m).m_hashData.d_hash =
        s.m_hashData.d_hash ∧
    (beforeCollect (SpecModel.kernels K O) s pose d p m).m_hashParams.m_numOccupiedBlocks =
        SpecModel.occupiedInFrustum O (withPose K s.m_hashParams pose) (slotCount s.m_hashParams)
          s.m_hashData.d_hash := by
  simp only [beforeCollect, integrateDepthMap, compactifyHashEntries, scanDecisionArray, alloc,
    launch, updateParams, setLastRigidTransform, bindDepthCameraTextures, SpecModel.kernels,
    SpecModel.integrateDepthMapCUDA, SpecModel.compactifyHashCUDA,
    SpecModel.fillDecisionArrayCUDA, SpecModel.resetHashBucketMutexCUDA,
    allocCUDA_invalid O _ _ _ d p m hinv]
  refine ⟨trivial, trivial, trivial, trivial, ?_⟩
  rw [prefixSum_total _ _ _ (decisionFlag_flag O _ _) (Nat.mod_lt _ (by decide)),
    ← List.map_take, count_decisionFlag]
  rfl

theorem freeStep_counters {F : Type} (O : SpecModel.DeviceOps F) (p : HashParams F)
    (d : VoxelHashData F) (i : Nat) :
    ∃ b, b ≤ 1 ∧
      (SpecModel.freeStep O p d i).d_heapCounter % UINT_MOD = (d.d_heapCounter + b) % UINT_MOD ∧
      (SpecModel.freeStep O p d i).d_overflowCounter = d.d_overflowCounter := by
  unfold SpecModel.freeStep
  split
  · split
    · exact ⟨0, by omega, rfl, rfl⟩
    · split
      · exact ⟨0, by omega, rfl, rfl⟩
      · exact ⟨1, by omega, Nat.mod_mod _ _, rfl⟩
  · exact ⟨0, by omega, rfl, rfl⟩

theorem freePass_counters {F : Type} (O : SpecModel.DeviceOps F) (p : HashParams F) :
    ∀ (l : List Nat) (d : VoxelHashData F),
      ∃ k, k ≤ l.length ∧
        (l.foldl (SpecModel.freeStep O p) d).d_heapCounter % UINT_MOD =
          (d.d_heapCounter + k) % UINT_MOD ∧
        (l.foldl (SpecModel.freeStep O p) d).d_overflowCounter = d.d_overflowCounter := by
  intro l
  induction l with
  | nil => intro d; exact ⟨0, by simp, rfl, rfl⟩
  | cons i l ih =>
    intro d
    obtain ⟨b, hb, h1, h2⟩ := freeStep_counters O p d i
    obtain ⟨k, hk, h3, h4⟩ := ih (SpecModel.freeStep O p d i)
    refine ⟨k + b, by simp only [List.length_cons]; omega, ?_, ?_⟩
    · rw [List.foldl_cons, h3]
      simp only [UINT_MOD] at h1 ⊢
      omega
    · rw [List.foldl_cons, h4, h2]

theorem garbageCollect_counters {F : Type} [Zero F] [DecidableEq F] (K : DeviceCode F)
    (O : SpecModel.DeviceOps F) (gas : GlobalAppState) (s : CUDASceneRepHashSDF F)
    (d : DepthCameraData F)
    (hdef : gas.s_garbageCollectionEnabled = true → 0 < s.m_numIntegratedFrames →
      0 < gas.s_garbageCollectionStarve) :
    ∃ t k, garbageCollect (SpecModel.kernels K O) gas s d = some t ∧
      k ≤ s.m_hashParams.m_numOccupiedBlocks ∧
      t.m_hashData.d_heapCounter % UINT_MOD = (s.m_hashData.d_heapCounter + k) % UINT_MOD ∧
      t.m_hashData.d_overflowCounter = s.m_hashData.d_overflowCounter ∧
      t.m_hashParams = s.m_hashParams ∧
      t.m_numIntegratedFrames = s.m_numIntegratedFrames ∧
      (gas.s_garbageCollectionEnabled = false → t = s) := by
  unfold garbageCollect
  by_cases hen : gas.s_garbageCollectionEnabled = true
  · rw [if_pos hen, starveDue_defined _ _ (hdef hen)]
    have hne : gas.s_garbageCollectionEnabled ≠ false := by rw [hen]; decide
    by_cases hdue : 0 < s.m_numIntegratedFrames ∧
        s.m_numIntegratedFrames % gas.s_garbageCollectionStarve = 0
    · obtain ⟨k, hk, h1, h2⟩ := freePass_counters O s.m_hashParams
        (List.range s.m_hashParams.m_numOccupiedBlocks)
        (SpecModel.resetHashBucketMutexCUDA s.gpu
          (SpecModel.garbageCollectIdentifyCUDA O s.gpu
            (SpecModel.starveVoxelsKernelCUDA s.gpu s.m_hashData s.m_hashParams) s.m_hashParams)
          s.m_hashParams)
      rw [List.length_range] at hk
      refine ⟨_, k, rfl, hk, ?_, ?_, ?_, ?_, fun h => absurd h hne⟩
      · simpa [hdue, launch, SpecModel.kernels, SpecModel.garbageCollectFreeCUDA] using h1
      · simpa [hdue, launch, SpecModel.kernels, SpecModel.garbageCollectFreeCUDA] using h2
      · simp [hdue, launch]
      · simp [hdue, launch]
    · obtain ⟨k, hk, h1, h2⟩ := freePass_counters O s.m_hashParams
        (List.range s.m_hashParams.m_numOccupiedBlocks)
        (SpecModel.resetHashBucketMutexCUDA s.gpu
          (SpecModel.garbageCollectIdentifyCUDA O s.gpu s.m_hashData s.m_hashParams)
          s.m_hashParams)
      rw [List.length_range] at hk
      refine ⟨_, k, rfl, hk, ?_, ?_, ?_, ?_, fun h => absurd h hne⟩
      · simpa [hdue, launch, SpecModel.kernels, SpecModel.garbageCollectFreeCUDA] using h1
      · simpa [hdue, launch, SpecModel.kernels, SpecModel.garbageCollectFreeCUDA] using h2
      · simp [hdue, launch]
      · simp [hdue, launch]
  · rw [if_neg hen]
    exact ⟨s, 0, rfl, by omega, rfl, rfl, rfl, rfl, fun _ => rfl⟩

/-- C7 (as amended). For a frame without a valid pixel, with the kernels of the
specification: up to the call of `garbageCollect` the heap, the heap counter,
the overflow counter and the hash table are those before the call. In the
state `integrate` returns, the overflow counter is the one before the call,
`m_numOccupiedBlocks` is the number of allocated slots in the frustum of the
pose passed in, and the heap counter is (modulo `2^32`) the one before the
call plus the number of bricks garbage collection has freed, at most
`m_numOccupiedBlocks`; with garbage collection disabled heap counter, heap
and hash table are those before the call. -/
theorem integrate_invalid_frame {F : Type} [Zero F] [DecidableEq F] (K : DeviceCode F)
    (O : SpecModel.DeviceOps F) (gas : GlobalAppState) (s : CUDASceneRepHashSDF F)
    (pose : mat4f F) (d : DepthCameraData F) (p : DepthCameraParams F) (m : List Nat)
    (hinv : allInvalid d)
    (hdef : gas.s_garbageCollectionEnabled = true → 0 < s.m_numIntegratedFrames →
      0 < gas.s_garbageCollectionStarve) :
    (∃ mid, integrate (SpecModel.kernels K O) gas s pose d p m =
          (garbageCollect (SpecModel.kernels K O) gas mid d).map incrementFrames ∧
        mid.m_hashData.d_heapCounter = s.m_hashData.d_heapCounter ∧
        mid.m_hashData.d_overflowCounter = s.m_hashData.d_overflowCounter ∧
        mid.m_hashData.d_heap = s.m_hashData.d_heap ∧
        mid.m_hashData.d_hash = s.m_hashData.d_hash ∧
        mid.m_hashParams.m_numOccupiedBlocks =
          SpecModel.occupiedInFrustum O (withPose K s.m_hashParams pose)
            (slotCount s.m_hashParams) s.m_hashData.d_hash) ∧
    ∃ t k, integrate (SpecModel.kernels K O) gas s pose d p m = some t ∧
      t.m_numIntegratedFrames = (s.m_numIntegratedFrames + 1) % UINT_MOD ∧
      t.m_hashData.d_overflowCounter = s.m_hashData.d_overflowCounter ∧
      t.m_hashParams.m_numOccupiedBlocks =
        SpecModel.occupiedInFrustum O (withPose K s.m_hashParams pose)
          (slotCount s.m_hashParams) s.m_hashData.d_hash ∧
      k ≤ t.m_hashParams.m_numOccupiedBlocks ∧
      t.m_hashData.d_heapCounter % UINT_MOD = (s.m_hashData.d_heapCounter + k) % UINT_MOD ∧
      (gas.s_garbageCollectionEnabled = false →
        t.m_hashData.d_heapCounter = s.m_hashData.d_heapCounter ∧
        t.m_hashData.d_heap = s.m_hashData.d_heap ∧
        t.m_hashData.d_hash = s.m_hashData.d_hash) := by
  obtain ⟨h1, h2, h3, h4, h5⟩ := beforeCollect_invalid K O s pose d p m hinv
  refine ⟨⟨_, integrate_eq _ gas s pose d p m, h1, h2, h3, h4, h5⟩, ?_⟩
  obtain ⟨t, k, ht, hk, hhc, hov, hpar, hfr, hoff⟩ :=
    garbageCollect_counters K O gas (beforeCollect (SpecModel.kernels K O) s pose d p m) d
      (by rw [beforeCollect_frames]; exact hdef)
  refine ⟨incrementFrames t, k, ?_, ?_, ?_, ?_, ?_, ?_, ?_⟩
  · rw [integrate_eq, ht]
    rfl
  · show (t.m_numIntegratedFrames + 1) % UINT_MOD = _
    rw [hfr, beforeCollect_frames]
  · show t.m_hashData.d_overflowCounter = _
    rw [hov, h2]
  · show t.m_hashParams.m_numOccupiedBlocks = _
    rw [hpar, h5]
  · show k ≤ t.m_hashParams.m_numOccupiedBlocks
    rw [hpar]
    exact hk
  · show t.m_hashData.d_heapCounter % UINT_MOD = _
    rw [hhc, h1]
  · intro hen
    have hts := hoff hen
    subst hts
    exact ⟨h1, h3, h4⟩

theorem frame_zero_invalid : allInvalid (OneBrick.frame 0) := by
  intro x hx
  simpa [OneBrick.frame] using hx

theorem integrate_invalid_frame_witness :
    OneBrick.seen.m_hashParams.m_numOccupiedBlocks = 1 ∧
    OneBrick.seen.m_hashData.d_heapCounter = 4294967295 ∧
    ∃ t, integrate OneBrick.device OneBrick.noCollect OneBrick.seen (OneBrick.poseAt 0)
        (OneBrick.frame 0) (OneBrick.camera 1 1) [] = some t ∧
      t.m_hashData.d_heapCounter = 4294967295 ∧ t.m_hashData.d_overflowCounter = 0 ∧
      t.m_hashParams.m_numOccupiedBlocks = 1 := by
  obtain ⟨t, _, ht, _, hov, hocc, _, _, hoff⟩ :=
    (integrate_invalid_frame OneBrick.idle OneBrick.ops OneBrick.noCollect OneBrick.seen
      (OneBrick.poseAt 0) (OneBrick.frame 0) (OneBrick.camera 1 1) [] frame_zero_invalid
      (fun h => absurd h (by decide))).2
  exact ⟨rfl, rfl, t, ht, (hoff rfl).1.trans rfl, hov.trans rfl, hocc.trans (by decide)⟩

/-- C7 as stated fails, for `numOccupiedBlocks` and for the heap counter. One
frame from the origin allocates a brick in front of the camera
(`m_numOccupiedBlocks = 1`); a second frame without a valid pixel, taken from
a pose that has the brick behind the camera, leaves `m_numOccupiedBlocks = 0`.
With garbage collection starving every frame, a second frame without a valid
pixel from the same pose starves the brick, frees it and moves the heap
counter from `2^32 - 1` to `0`. -/
theorem invalid_frame_changes_state :
    (∃ s t, Reachable OneBrick.device OneBrick.noCollect s ∧
      allInvalid (OneBrick.frame 0) ∧
      integrate OneBrick.device OneBrick.noCollect s (OneBrick.poseAt 5) (OneBrick.frame 0)
        (OneBrick.camera 1 1) [] = some t ∧
      s.m_hashParams.m_numOccupiedBlocks = 1 ∧ t.m_hashParams.m_numOccupiedBlocks = 0) ∧
    (∃ s t, Reachable OneBrick.device OneBrick.starving s ∧
      allInvalid (OneBrick.frame 0) ∧
      integrate OneBrick.device OneBrick.starving s (OneBrick.poseAt 0) (OneBrick.frame 0)
        (OneBrick.camera 1 1) [] = some t ∧
      s.m_hashData.d_heapCounter = 4294967295 ∧ t.m_hashData.d_heapCounter = 0 ∧
      s.m_hashData.d_hash = [{ pos := { x := 0, y := 0, z := 2 }, offset := 0, ptr := 0 }] ∧
      t.m_hashData.d_hash =
        [{ pos := { x := 0, y := 0, z := 2 }, offset := 0, ptr := -2 }]) := by
  have hr : Reachable OneBrick.device OneBrick.noCollect OneBrick.seen :=
    Reachable.integrate _ _ (OneBrick.poseAt 0) (OneBrick.frame 2) (OneBrick.camera 1 1) []
      (Reachable.reset _) rfl
  have hc : Reachable OneBrick.device OneBrick.starving OneBrick.seenCollect :=
    Reachable.integrate _ _ (OneBrick.poseAt 0) (OneBrick.frame 2) (OneBrick.camera 1 1) []
      (Reachable.reset _) rfl
  exact ⟨⟨_, _, hr, frame_zero_invalid, rfl, rfl, rfl⟩,
    ⟨_, _, hc, frame_zero_invalid, rfl, rfl, rfl, rfl, rfl⟩⟩

/-! ## The marker vector of `debugHash` -/

theorem entryStep_lock (lbs : Nat) (fs : List Nat) (st : EntryScan) (e : HashEntry)
    (he : e.ptr = -1) (hlbs : lbs ≠ 0) (hf : (UINT_MOD - 1) / lbs ∉ fs)
    (hlt : (UINT_MOD - 1) / lbs < st.pointersFreeVec.length) :
    entryStep lbs fs st e =
      Except.ok
        { numOccupied := (st.numOccupied + 1) % UINT_MOD
          numMinusOne := (st.numMinusOne + 1) % UINT_MOD
          l := st.l ++ [e.pos]
          pointersFreeVec := st.pointersFreeVec.set ((UINT_MOD - 1) / lbs) (toUInt LOCK_ENTRY) } := by
  have hidx : toUInt (-1) = UINT_MOD - 1 := by decide
  unfold entryStep
  simp only [he, if_true]
  rw [if_pos (by decide), if_neg hlbs, hidx, if_neg hf, if_pos hlt]

/-- C10. In `debugHash` no index into `pointersFreeVec` is out of range when
every free-stack value is below `N` and every hash entry is empty or has a
non-negative `ptr` with `ptr / B^3 < N`. An entry with `ptr = -1` is not
`FREE_ENTRY`: the loop counts it as occupied and marks the index
`(2^32 - 1) / B^3` when that index is in range; when the check reaches the
entry (the free stack is in the heap and has no duplicate, the entries before
it pass) and `N ≤ (2^32 - 1) / B^3`, that index is out of range. -/
theorem debugHash_marker_index (N B numInFrustum : Nat) (heapCPU : List Nat)
    (heapCounter : Nat) (hashCPU : List HashEntry)
    (hheap : ∀ v ∈ freeStack heapCPU heapCounter, v < N)
    (hent : ∀ e ∈ hashCPU, e.ptr = FREE_ENTRY ∨ (0 ≤ e.ptr ∧ brickIndex B e < N)) :
    debugHashCPU N B numInFrustum heapCPU heapCounter hashCPU ≠
        Except.error DebugError.markerOutOfRange ∧
    ∀ (e : HashEntry) (post : List HashEntry), e.ptr = LOCK_ENTRY →
      e.ptr ≠ FREE_ENTRY ∧
      brickIndex B e = (UINT_MOD - 1) / ((B * B * B) % UINT_MOD) ∧
      (∀ (st : EntryScan) (pointersFreeHash : List Nat),
        (B * B * B) % UINT_MOD ≠ 0 →
        (UINT_MOD - 1) / ((B * B * B) % UINT_MOD) ∉ pointersFreeHash →
        (UINT_MOD - 1) / ((B * B * B) % UINT_MOD) < st.pointersFreeVec.length →
        entryStep ((B * B * B) % UINT_MOD) pointersFreeHash st e =
          Except.ok
            { numOccupied := (st.numOccupied + 1) % UINT_MOD
              numMinusOne := (st.numMinusOne + 1) % UINT_MOD
              l := st.l ++ [e.pos]
              pointersFreeVec :=
                st.pointersFreeVec.set ((UINT_MOD - 1) / ((B * B * B) % UINT_MOD))
                  (toUInt LOCK_ENTRY) }) ∧
      ((heapCounter + 1) % UINT_MOD ≤ heapCPU.length →
        (freeStack heapCPU heapCounter).Nodup →
        (B * B * B) % UINT_MOD ≠ 0 →
        (∀ x ∈ hashCPU, x.ptr ≠ FREE_ENTRY → brickIndex B x ∉ freeStack heapCPU heapCounter) →
        N ≤ (UINT_MOD - 1) / ((B * B * B) % UINT_MOD) →
        debugHashCPU N B numInFrustum heapCPU heapCounter (hashCPU ++ e :: post) =
          Except.error DebugError.markerOutOfRange) := by
  have hr : EntriesInRange ((B * B * B) % UINT_MOD) N hashCPU := by
    intro e he
    rcases hent e he with h1 | h1
    · exact Or.inl h1
    · exact Or.inr h1.2
  refine ⟨debugHashCPU_not_marker N B numInFrustum heapCPU heapCounter hashCPU hheap hr, ?_⟩
  intro e post he
  refine ⟨?_, ?_, ?_, ?_⟩
  · rw [he]
    decide
  · unfold brickIndex
    rw [he]
    rfl
  · intro st fs hB hf hlt
    exact entryStep_lock _ fs st e he hB hf hlt
  · intro hlen hnodup hB hfree hN
    exact debugHashCPU_lock_entry N B numInFrustum heapCPU heapCounter hashCPU e post hlen hheap
      hnodup hB hr hfree he hN

theorem debugHash_marker_index_witness :
    debugHashCPU 2 8 0 [1, 0] 0
        [{ pos := { x := 0, y := 0, z := 0 }, offset := 0, ptr := 0 }] ≠
      Except.error DebugError.markerOutOfRange ∧
    debugHashCPU 2 8 0 [1, 0] 0
        ([{ pos := { x := 0, y := 0, z := 0 }, offset := 0, ptr := 0 }] ++
          { pos := { x := 1, y := 0, z := 0 }, offset := 0, ptr := -1 } :: []) =
      Except.error DebugError.markerOutOfRange :=
  have h := debugHash_marker_index 2 8 0 [1, 0] 0
    [{ pos := { x := 0, y := 0, z := 0 }, offset := 0, ptr := 0 }] (by decide) (by decide)
  ⟨h.1, (h.2 { pos := { x := 1, y := 0, z := 0 }, offset := 0, ptr := -1 } [] rfl).2.2.2
    (by decide) (by decide) (by decide) (by decide) (by decide)⟩

end VoxelHashing
